import Mathlib

/-!
Shallow embedding of the `evm-from-scrustch` EVM interpreter.

The execution-frame generation embedded here is the one the claims cite:
`src/lib.rs` (`ExecutionContext`, `run`, `execute_call`), `src/opcode.rs`
(`Opcode`, `TryFrom<u8>`, `Opcode::execute`, `validate_jumpdest`,
`fix_gas`), `src/interpreter/stack.rs` (`Stack`), `src/memory.rs`
(`Memory`), `src/primitives/state.rs` (`State`), `src/interpreter/call.rs`
(`Call`), `src/logs.rs` (`Log`), `src/types.rs` (`Bytes32`/`Bytes`).

Modelling conventions:
  * a 256-bit word (`Bytes32` in the source, always normalised to exactly
    32 bytes) is a `Nat` below `2^256`; byte buffers are `List Nat`;
  * Rust panics (out-of-bounds indexing, `unwrap` on `Err`/`None`,
    explicit `panic!`, `usize` over/underflow in casts) are the `.crash`
    value of `Fault`; they abort the host process and are distinct from a
    revert result;
  * the recursive run loop and sub-call machinery are indexed by fuel,
    with `.outOfFuel` returned when the fuel runs out;
  * opcodes whose semantics no claim touches (keccak hashing, `CREATE`,
    shifts, block-environment reads, the calldata/code copy family) are
    mapped to `.unmodelled`; no theorem below evaluates them;
  * `HashMap` state is an association list with first-match lookup and
    in-place replacement on insert.
-/

/-- Fatal outcome of a step of the embedded interpreter: `crash` is a Rust
panic (host-process abort), `outOfFuel` is exhaustion of the termination
fuel of the embedding, `unmodelled` marks an opcode left out of the
embedding. -/
inductive Fault where
  | crash : Fault
  | outOfFuel : Fault
  | unmodelled : Fault
deriving DecidableEq, Repr

/-- Computations that can abort with a `Fault`. -/
abbrev EOut (α : Type) : Type := Except Fault α

/-- Word size: values on the stack are 256-bit (`Bytes32` / `U256`). -/
def W : Nat := 2 ^ 256

/-- Size of the 512-bit widening type (`U512`) used by ADDMOD/MULMOD. -/
def W512 : Nat := 2 ^ 512

/-- Low 20 bytes of a word (`Bytes32::to_address`). -/
def A160 : Nat := 2 ^ 160

/-- A 256-bit stack word (`Bytes32`, kept normalised to 32 bytes). -/
abbrev Word : Type := Nat

/-- A 20-byte account address (`Address`). -/
abbrev Addr : Type := Nat

/-- Bitwise not over 256 bits (`Bytes32::not` on a 32-byte buffer). -/
def notW (a : Word) : Word := (W - 1) - a

/-- The expression `x.not().overflowing_add(U256::one()).0` used by the
source for two's-complement negation. -/
def twosNeg (a : Word) : Word := (notW a + 1) % W

/-- The sign test `x.bit(255)` of the source. -/
def sgnBit (a : Word) : Bool := a.testBit 255

/-- The cast `Bytes32::as_usize` (via `U256::as_usize`), which panics when
the value does not fit in the 64-bit `usize`. -/
def asUsize (a : Word) : EOut Nat :=
  if a < 2 ^ 64 then .ok a else .error .crash

/-- The truncation `Bytes32::to_address`: keep the low 20 bytes. -/
def toAddress (a : Word) : Addr := a % A160

/-- Big-endian byte list to value; `Bytes32::from_slice` right-aligns a
slice of at most 32 bytes, which is exactly this value. -/
def beWord (bytes : List Nat) : Word :=
  bytes.foldl (fun acc b => acc * 256 + b % 256) 0

/-- Big-endian 32-byte rendering of a word (`Bytes::from_bytes32`). -/
def wordBytes32 (a : Word) : List Nat :=
  (List.range 32).map (fun i => a / 256 ^ (31 - i) % 256)

-- ---------------------------------------------------------------------------
-- Stack (src/interpreter/stack.rs)
-- ---------------------------------------------------------------------------

/-- The operand stack: `items` is bottom-first, mirroring the `Vec<Bytes32>`
of the source; `max_depth` is set to 1024 by `Stack::new`. -/
structure Stack where
  items : List Word
  max_depth : Nat
deriving DecidableEq, Repr

/-- The constructor `Stack::new`. -/
def Stack.new : Stack := ⟨[], 1024⟩

/-- The operation `Stack::push`: `panic!("Stack overflow")` when the vector
already holds `max_depth` items, else append at the top. -/
def Stack.push (s : Stack) (value : Word) : EOut Stack :=
  if s.items.length = s.max_depth then .error .crash
  else .ok ⟨s.items ++ [value], s.max_depth⟩

/-- The operation `Stack::pop`: `panic!("Stack underflow")` on an empty
vector, else remove and return the top (last) element. -/
def Stack.pop (s : Stack) : EOut (Word × Stack) :=
  match s.items.getLast? with
  | none => .error .crash
  | some v => .ok (v, ⟨s.items.dropLast, s.max_depth⟩)

/-- The operation `Stack::swap(depth)`: panic when `depth >= len`, else swap
the top with the element `depth` below it. -/
def Stack.swap (s : Stack) (depth : Nat) : EOut Stack :=
  if depth ≥ s.items.length then .error .crash
  else
    let n := s.items.length
    let i := n - depth - 1
    let j := n - 1
    let vi := s.items.getD i 0
    let vj := s.items.getD j 0
    .ok ⟨(s.items.set i vj).set j vi, s.max_depth⟩

/-- The getter `Stack::get_item(depth)` (bottom-first index). -/
def Stack.get_item (s : Stack) (depth : Nat) : Option Word :=
  s.items.get? depth

/-- The getter `Stack::depth`. -/
def Stack.depth (s : Stack) : Nat := s.items.length

/-- The getter `Stack::deref_items`: the items reversed, i.e. top-first. -/
def Stack.deref_items (s : Stack) : List Word := s.items.reverse

-- ---------------------------------------------------------------------------
-- Memory (src/memory.rs)
-- ---------------------------------------------------------------------------

namespace Memory

/-- The method `Memory::load(offset)` of `src/memory.rs`: resize to
`offset + 32` with zero fill when out of bounds, then return the 32-byte
slice at `offset`. The updated buffer is returned alongside the slice. -/
def load (m : List Nat) (offset : Nat) : List Nat × List Nat :=
  let m1 := if offset + 32 > m.length
    then m ++ List.replicate (offset + 32 - m.length) 0 else m
  ((m1.drop offset).take 32, m1)

/-- The method `Memory::store(offset, value)` of `src/memory.rs`:
`words = value.len() / 32`; resize the buffer to `offset + words*32` when
that exceeds the current length; then
`self.0[offset..offset + words*32].copy_from_slice(value)`, which panics
(`none`) unless `value.len() == words*32`, i.e. unless the length is a
multiple of 32. -/
def store (m : List Nat) (offset : Nat) (value : List Nat) : Option (List Nat) :=
  let words := value.length / 32
  let m1 := if offset + words * 32 > m.length
    then m ++ List.replicate (offset + words * 32 - m.length) 0 else m
  if value.length = words * 32
  then some (m1.take offset ++ value ++ m1.drop (offset + words * 32))
  else none

/-- The method `Memory::store8(offset, value)` of `src/memory.rs`. -/
def store8 (m : List Nat) (offset : Nat) (value : Nat) : List Nat :=
  let m1 := if offset + 1 > m.length
    then m ++ List.replicate (offset + 1 - m.length) 0 else m
  m1.set offset value

/-- The method `Memory::size` of `src/memory.rs`: length rounded up to a
multiple of 32. -/
def size (m : List Nat) : Nat :=
  let len := m.length
  if len = 0 then 0
  else if len % 32 ≠ 0 then (len / 32 + 1) * 32 else len / 32 * 32

/-- The method `Memory::expansion(offset, size)` of `src/memory.rs`. -/
def expansion (m : List Nat) (offset : Nat) (size : Nat) : Nat :=
  if offset + size > m.length then offset + size - m.length else 0

end Memory

namespace SpecMemory

/-- Modelled from the spec: the frame memory used by `Opcode::execute` has
a two-argument `load(offset, size)` and a `store(offset, bytes)` that are
absent from `src/` (only the one-argument `src/memory.rs` variant is
present). Per the spec, an access touching `[offset, offset+size)` grows
the byte buffer to `ceil((offset+size)/32)*32` with zero fill. -/
def grow (m : List Nat) (upto : Nat) : List Nat :=
  let target := (upto + 31) / 32 * 32
  if target > m.length then m ++ List.replicate (target - m.length) 0 else m

/-- Modelled from the spec: `load(offset, size)` returns the byte slice of
the requested range, expanding as needed; the expanded buffer is returned
alongside the slice. -/
def load (m : List Nat) (offset : Nat) (size : Nat) : List Nat × List Nat :=
  let m1 := grow m (offset + size)
  ((m1.drop offset).take size, m1)

/-- Modelled from the spec: `store(offset, bytes)` writes the bytes at
`offset`, expanding as needed. -/
def store (m : List Nat) (offset : Nat) (bytes : List Nat) : List Nat :=
  let m1 := grow m (offset + bytes.length)
  m1.take offset ++ bytes ++ m1.drop (offset + bytes.length)

/-- The word-aligned size reported by `MSIZE` (same shape as
`Memory::size` in `src/memory.rs`). -/
def size (m : List Nat) : Nat :=
  let len := m.length
  if len = 0 then 0
  else if len % 32 ≠ 0 then (len / 32 + 1) * 32 else len / 32 * 32

/-- The gas helper `expansion(offset, size)` (same shape as
`Memory::expansion` in `src/memory.rs`). -/
def expansion (m : List Nat) (offset : Nat) (size : Nat) : Nat :=
  if offset + size > m.length then offset + size - m.length else 0

end SpecMemory

-- ---------------------------------------------------------------------------
-- World state (src/primitives/state.rs)
-- ---------------------------------------------------------------------------

/-- An account record (`AccountState`). The test-harness plumbing fields
(`code_hash`, `code_test`) and the unused `warm_slots` list are omitted;
`bytecode` is the account's code (the `code()` getter falls back to the
test-input field only when `bytecode` is empty, in which case it decodes
the empty hex string, i.e. also yields the empty buffer). -/
structure AccountState where
  address : Addr
  balance : Word
  nonce : Word
  bytecode : List Nat
  storage : List (Nat × Word)
  warm : Bool
deriving DecidableEq, Repr

/-- The constructor `AccountState::new` / `Default`. -/
def AccountState.new (address : Addr) : AccountState :=
  ⟨address, 0, 0, [], [], false⟩

/-- EVM State: a mapping from addresses to accounts (`HashMap`), embedded
as an association list with first-match lookup. -/
abbrev State : Type := List (Addr × AccountState)

namespace State

/-- The lookup `State::get`. -/
def get (s : State) (address : Addr) : Option AccountState :=
  (s.find? (fun p => p.1 = address)).map (fun p => p.2)

/-- The insertion `HashMap::insert`: replace in place when the key is
present, else append. -/
def insert (s : State) (address : Addr) (acc : AccountState) : State :=
  if (s.find? (fun p => p.1 = address)).isSome
  then s.map (fun p => if p.1 = address then (address, acc) else p)
  else s ++ [(address, acc)]

/-- The removal `State::delete`. -/
def delete (s : State) (address : Addr) : State :=
  s.filter (fun p => ¬ p.1 = address)

/-- The installer `State::create(addr, code, balance)`. -/
def create (s : State) (address : Addr) (code : List Nat) (balance : Word) : State :=
  insert s address { AccountState.new address with bytecode := code, balance := balance }

/-- The method `State::transfer(from, to, value)` of
`src/primitives/state.rs`: zero value is a no-op; a missing or
underfunded `from` account is `InsufficientBalance`; otherwise debit
`from` then credit `to`, creating `to` with the transferred balance when
absent. -/
def transfer (s : State) (af : Addr) (at' : Addr) (value : Word) : Except String State :=
  if value = 0 then .ok s
  else
    match get s af with
    | none => .error "InsufficientBalance"
    | some accF =>
      if accF.balance < value then .error "InsufficientBalance"
      else
        let s1 := insert s af { accF with balance := accF.balance - value }
        match get s1 at' with
        | some accT => .ok (insert s1 at' { accT with balance := accT.balance + value })
        | none => .ok (s1 ++ [(at', { AccountState.new at' with balance := value })])

/-- The balance read used by the opcodes (`State::balance` of
`src/state.rs`): a missing account reads as zero. -/
def balance (s : State) (address : Addr) : Word :=
  ((get s address).map (fun a => a.balance)).getD 0

/-- The code read used by `execute_call` (`State::code`): a missing
account reads as the empty buffer. -/
def code (s : State) (address : Addr) : List Nat :=
  ((get s address).map (fun a => a.bytecode)).getD []

/-- The read `State::code_size`. -/
def code_size (s : State) (address : Addr) : Nat :=
  (code s address).length

/-- The read `State::storage_load(addr, key)`: zero when the account or
the slot is absent. -/
def storage_load (s : State) (address : Addr) (key : Nat) : Word :=
  match get s address with
  | none => 0
  | some acc => ((acc.storage.find? (fun p => p.1 = key)).map (fun p => p.2)).getD 0

/-- The write `State::storage_store(addr, key, value)`: creates the
account when absent, then inserts into its storage map. -/
def storage_store (s : State) (address : Addr) (key : Nat) (value : Word) : State :=
  let acc := (get s address).getD (AccountState.new address)
  let st1 :=
    if (acc.storage.find? (fun p => p.1 = key)).isSome
    then acc.storage.map (fun p => if p.1 = key then (key, value) else p)
    else acc.storage ++ [(key, value)]
  insert s address { acc with storage := st1 }

end State

-- ---------------------------------------------------------------------------
-- Call context (src/interpreter/call.rs), logs (src/logs.rs), environment
-- ---------------------------------------------------------------------------

/-- The call context `Call` of `src/interpreter/call.rs`, with its field
order: sender, recipient, originator, gas_price, available_gas,
code_target, data, value, view (static flag), result (the buffer set by
RETURN/REVERT). -/
structure Call where
  sender : Addr
  recipient : Addr
  originator : Addr
  gas_price : Word
  available_gas : Word
  code_target : Addr
  data : List Nat
  value : Word
  view : Bool
  result : List Nat
deriving DecidableEq, Repr

/-- The constructor `Call::new`, which takes every field but starts with an
empty `result` buffer. -/
def Call.new (sender recipient originator : Addr) (gas_price available_gas : Word)
    (code_target : Addr) (data : List Nat) (value : Word) (view : Bool) : Call :=
  ⟨sender, recipient, originator, gas_price, available_gas, code_target, data, value, view, []⟩

/-- The getter `Call::is_static`. -/
def Call.is_static (c : Call) : Bool := c.view

/-- A log record (`Log` of `src/logs.rs`): emitting address, data bytes and
up to four topic words; the four `Option` topic slots plus counter of the
source are collapsed to the list of filled slots in order. -/
structure Log where
  address : Addr
  data : List Nat
  topics : List Word
deriving DecidableEq, Repr

/-- The execution environment (`Env` of `src/lib.rs`): the current call
context. The block-metadata half is omitted; the opcodes that read it are
left `.unmodelled`. -/
structure Env where
  call : Call
deriving DecidableEq, Repr

/-- The result `CallResult` of `src/lib.rs`: success is a `Bytes32`
(`one()` or `zero()`), alongside the child's return buffer. -/
structure CallResult where
  success : Word
  result : List Nat
deriving DecidableEq, Repr

/-- The result `EvmResult` of `src/lib.rs`: final stack (top-first), logs,
success flag, and the call's result buffer. -/
structure EvmResult where
  stack : List Word
  logs : List Log
  success : Bool
  result : List Nat
deriving DecidableEq, Repr

/-- The execution frame `ExecutionContext` of `src/lib.rs`. The `memory`
field is the two-argument `SpecMemory` byte buffer (see above). -/
structure ExecutionContext where
  env : Env
  target : Addr
  code : List Nat
  pc : Nat
  stack : Stack
  state : State
  memory : List Nat
  gas : Nat
  return_data : List Nat
  logs : List Log
  stopped : Bool
  to_delete : List Addr
deriving DecidableEq, Repr

namespace ExecutionContext

/-- The accessor `ExecutionContext::gas_left`. -/
def gas_left (ctx : ExecutionContext) : Nat := ctx.gas

/-- The helper `ExecutionContext::sub_ctx`: clone the whole frame, then
point it at the callee's code and call context with `pc = 0`. Everything
else — stack, memory, state, gas, logs, return_data, stopped, to_delete —
is inherited from the parent clone. -/
def sub_ctx (ctx : ExecutionContext) (code : List Nat) (call : Call) : ExecutionContext :=
  { ctx with target := call.recipient, code := code, env := { ctx.env with call := call }, pc := 0 }

end ExecutionContext

-- ---------------------------------------------------------------------------
-- Opcodes (src/opcode.rs)
-- ---------------------------------------------------------------------------

/-- The opcode enum of `src/opcode.rs`. The 32 PUSH variants, 16 DUP
variants, 16 SWAP variants and 5 LOG variants — whose `execute` arms are
textually identical up to the index — are collapsed into parameterised
constructors (`PUSH n` for `1 ≤ n ≤ 32`, etc.); `decode` below only ever
produces parameters in the source ranges. -/
inductive Opcode where
  | STOP | ADD | MUL | SUB | DIV | SDIV | MOD | SMOD | ADDMOD | MULMOD
  | EXP | SIGNEXTEND
  | LT | GT | SLT | SGT | EQ | ISZERO | AND | OR | XOR | NOT | BYTE
  | SHL | SHR | SAR
  | SHA3
  | ADDRESS | BALANCE | ORIGIN | CALLER | CALLVALUE | CALLDATALOAD
  | CALLDATASIZE | CALLDATACOPY | CODESIZE | CODECOPY | GASPRICE
  | EXTCODESIZE | EXTCODECOPY | RETURNDATASIZE | RETURNDATACOPY | EXTCODEHASH
  | BLOCKHASH | COINBASE | TIMESTAMP | NUMBER | PREVRANDAO | GASLIMIT
  | CHAINID | SELFBALANCE | BASEFEE
  | POP | MLOAD | MSTORE | MSTORE8 | SLOAD | SSTORE | JUMP | JUMPI
  | PC | MSIZE | GAS | JUMPDEST
  | PUSH : Nat → Opcode
  | DUP : Nat → Opcode
  | SWAP : Nat → Opcode
  | LOG : Nat → Opcode
  | CREATE | CALL | CALLCODE | RETURN | DELEGATECALL | CREATE2
  | STATICCALL | REVERT | INVALID | SELFDESTRUCT
deriving Repr

/-- Whether an opcode is JUMPDEST (used instead of propositional equality
on `Opcode`, for which no decidable-equality instance is derived). -/
def isJumpdestOp : Opcode → Bool
  | .JUMPDEST => true
  | _ => false

/-- The decoder `TryFrom<u8> for Opcode`: the partial byte-to-opcode table;
unmatched bytes are `none` (`Err` in the source). -/
def decode (b : Nat) : Option Opcode :=
  if b = 0x00 then some .STOP
  else if b = 0x01 then some .ADD
  else if b = 0x02 then some .MUL
  else if b = 0x03 then some .SUB
  else if b = 0x04 then some .DIV
  else if b = 0x05 then some .SDIV
  else if b = 0x06 then some .MOD
  else if b = 0x07 then some .SMOD
  else if b = 0x08 then some .ADDMOD
  else if b = 0x09 then some .MULMOD
  else if b = 0x0A then some .EXP
  else if b = 0x0B then some .SIGNEXTEND
  else if b = 0x10 then some .LT
  else if b = 0x11 then some .GT
  else if b = 0x12 then some .SLT
  else if b = 0x13 then some .SGT
  else if b = 0x14 then some .EQ
  else if b = 0x15 then some .ISZERO
  else if b = 0x16 then some .AND
  else if b = 0x17 then some .OR
  else if b = 0x18 then some .XOR
  else if b = 0x19 then some .NOT
  else if b = 0x1A then some .BYTE
  else if b = 0x1B then some .SHL
  else if b = 0x1C then some .SHR
  else if b = 0x1D then some .SAR
  else if b = 0x20 then some .SHA3
  else if b = 0x30 then some .ADDRESS
  else if b = 0x31 then some .BALANCE
  else if b = 0x32 then some .ORIGIN
  else if b = 0x33 then some .CALLER
  else if b = 0x34 then some .CALLVALUE
  else if b = 0x35 then some .CALLDATALOAD
  else if b = 0x36 then some .CALLDATASIZE
  else if b = 0x37 then some .CALLDATACOPY
  else if b = 0x38 then some .CODESIZE
  else if b = 0x39 then some .CODECOPY
  else if b = 0x3A then some .GASPRICE
  else if b = 0x3B then some .EXTCODESIZE
  else if b = 0x3C then some .EXTCODECOPY
  else if b = 0x3D then some .RETURNDATASIZE
  else if b = 0x3E then some .RETURNDATACOPY
  else if b = 0x3F then some .EXTCODEHASH
  else if b = 0x40 then some .BLOCKHASH
  else if b = 0x41 then some .COINBASE
  else if b = 0x42 then some .TIMESTAMP
  else if b = 0x43 then some .NUMBER
  else if b = 0x44 then some .PREVRANDAO
  else if b = 0x45 then some .GASLIMIT
  else if b = 0x46 then some .CHAINID
  else if b = 0x47 then some .SELFBALANCE
  else if b = 0x48 then some .BASEFEE
  else if b = 0x50 then some .POP
  else if b = 0x51 then some .MLOAD
  else if b = 0x52 then some .MSTORE
  else if b = 0x53 then some .MSTORE8
  else if b = 0x54 then some .SLOAD
  else if b = 0x55 then some .SSTORE
  else if b = 0x56 then some .JUMP
  else if b = 0x57 then some .JUMPI
  else if b = 0x58 then some .PC
  else if b = 0x59 then some .MSIZE
  else if b = 0x5A then some .GAS
  else if b = 0x5B then some .JUMPDEST
  else if 0x60 ≤ b ∧ b ≤ 0x7F then some (.PUSH (b - 0x5F))
  else if 0x80 ≤ b ∧ b ≤ 0x8F then some (.DUP (b - 0x7F))
  else if 0x90 ≤ b ∧ b ≤ 0x9F then some (.SWAP (b - 0x8F))
  else if 0xA0 ≤ b ∧ b ≤ 0xA4 then some (.LOG (b - 0xA0))
  else if b = 0xF0 then some .CREATE
  else if b = 0xF1 then some .CALL
  else if b = 0xF2 then some .CALLCODE
  else if b = 0xF3 then some .RETURN
  else if b = 0xF4 then some .DELEGATECALL
  else if b = 0xF5 then some .CREATE2
  else if b = 0xFA then some .STATICCALL
  else if b = 0xFD then some .REVERT
  else if b = 0xFE then some .INVALID
  else if b = 0xFF then some .SELFDESTRUCT
  else none

/-- Whether an opcode is one of PUSH1..PUSH32 — the pattern matched by
`validate_jumpdest` on the byte before the jump target. -/
def isPushOp : Opcode → Bool
  | .PUSH _ => true
  | _ => false

/-- The base-gas table `Opcode::fix_gas` (unlisted opcodes fall to the
`_ => 0` arm of the source). -/
def Opcode.fix_gas : Opcode → Nat
  | .STOP => 0
  | .INVALID => 0
  | .JUMPDEST => 1
  | .ADDRESS => 2
  | .POP => 2
  | .PC => 2
  | .MSIZE => 2
  | .GAS => 2
  | .MLOAD => 3
  | .MSTORE => 3
  | .MSTORE8 => 3
  | .ADD => 3
  | .SUB => 3
  | .LT => 3
  | .GT => 3
  | .SLT => 3
  | .SGT => 3
  | .EQ => 3
  | .ISZERO => 3
  | .AND => 3
  | .OR => 3
  | .XOR => 3
  | .NOT => 3
  | .BYTE => 3
  | .SHL => 3
  | .SHR => 3
  | .SAR => 3
  | .PUSH _ => 3
  | .DUP _ => 3
  | .SWAP _ => 3
  | .MUL => 5
  | .DIV => 5
  | .SDIV => 5
  | .MOD => 5
  | .SMOD => 5
  | .SIGNEXTEND => 5
  | .ADDMOD => 8
  | .MULMOD => 8
  | .JUMP => 8
  | .EXP => 10
  | .JUMPI => 10
  | .SHA3 => 30
  | _ => 0

-- ---------------------------------------------------------------------------
-- Arithmetic bodies of the opcode arms (src/opcode.rs)
-- ---------------------------------------------------------------------------

/-- The DIV arm: zero divisor yields zero, else `U256` division. -/
def divOp (a b : Word) : Word := if b = 0 then 0 else a / b

/-- The MOD arm: zero divisor yields zero, else `U256` remainder. -/
def modOp (a b : Word) : Word := if b = 0 then 0 else a % b

/-- The SDIV arm, verbatim: two's-complement negate each negative operand,
divide the magnitudes, negate the quotient when the signs differ. -/
def sdivOp (a b : Word) : Word :=
  if b = 0 then 0
  else
    let a_twos := if sgnBit a then twosNeg a else a
    let b_twos := if sgnBit b then twosNeg b else b
    let d := a_twos / b_twos
    if sgnBit a ≠ sgnBit b then twosNeg d else d

/-- The SMOD arm, verbatim: magnitudes' remainder, negated when **either**
operand is negative (`a_neg | b_neg` in the source). -/
def smodOp (a b : Word) : Word :=
  if b = 0 then 0
  else
    let a_twos := if sgnBit a then twosNeg a else a
    let b_twos := if sgnBit b then twosNeg b else b
    let d := a_twos % b_twos
    if sgnBit a || sgnBit b then twosNeg d else d

/-- The ADDMOD arm: zero modulus yields zero, else `(a + b) % c` computed
in `U512` (the sum is taken modulo `2^512`, mirroring the widened type;
the final `try_into` to `U256` cannot fail because the result is below
`c < 2^256`, as proved below). -/
def addmodOp (a b c : Word) : Word :=
  if c = 0 then 0 else ((a + b) % W512) % c

/-- The MULMOD arm: zero modulus yields zero, else `(a * b) % c` in
`U512`. -/
def mulmodOp (a b c : Word) : Word :=
  if c = 0 then 0 else ((a * b) % W512) % c

/-- The SLT arm, verbatim: push 1 when the two's-complement negation of
the first popped word exceeds (as an unsigned 256-bit integer) that of
the second, else push 0. -/
def sltOp (a b : Word) : Word :=
  if twosNeg a > twosNeg b then 1 else 0

/-- The SGT arm, verbatim: the same comparison reversed. -/
def sgtOp (a b : Word) : Word :=
  if twosNeg a < twosNeg b then 1 else 0

/-- The byte selection `Bytes32::get_byte(index)` from the most-significant
end, 0 when the index is past 32. -/
def getByte (a : Word) (index : Nat) : Nat :=
  if index < 32 then a / 256 ^ (31 - index) % 256 else 0

/-- The validator `validate_jumpdest(code, pc_new)` of `src/opcode.rs`.
Panics are faithful: `code[pc_new]` panics out of range; each
`try_into().unwrap()` panics on a byte outside the opcode table; and
`code[pc_new - 1]` at `pc_new = 0` is a `usize` underflow (debug panic; in
release it wraps to an equally panicking huge index). -/
def validate_jumpdest (code : List Nat) (pc_new : Nat) : EOut Bool :=
  if pc_new < code.length then
    match decode (code.getD pc_new 0) with
    | none => .error .crash
    | some .JUMPDEST =>
      if pc_new = 0 then .error .crash
      else
        match decode (code.getD (pc_new - 1) 0) with
        | none => .error .crash
        | some op => .ok (! isPushOp op)
    | some _ => .ok false
  else .error .crash

-- ---------------------------------------------------------------------------
-- The run loop and sub-call machinery (src/lib.rs, src/opcode.rs)
-- ---------------------------------------------------------------------------

/-- Pop-then-cast helper for the ubiquitous `ctx.stack.pop().as_usize()`. -/
def Stack.popUsize (s : Stack) : EOut (Nat × Stack) := do
  let (w, s1) ← s.pop
  let n ← asUsize w
  .ok (n, s1)

/-- Pop `n` words, returned in pop order (top first). -/
def Stack.popN (s : Stack) : Nat → EOut (List Word × Stack)
  | 0 => .ok ([], s)
  | n + 1 => do
    let (w, s1) ← s.pop
    let (ws, s2) ← s1.popN n
    .ok (w :: ws, s2)

/-- End of `ExecutionContext::run`: on success apply the pending
selfdestruct deletions to the state, then assemble the `EvmResult`
(top-first stack, logs, success flag, the call's result buffer). The
final frame is returned alongside, mirroring the in-place mutation that
`execute_call` reads back. -/
def ExecutionContext.finish (success : Bool) (ctx : ExecutionContext) :
    EvmResult × ExecutionContext :=
  let ctx1 := if success
    then { ctx with state := ctx.to_delete.foldl (fun st a => State.delete st a) ctx.state }
    else ctx
  ({ stack := ctx1.stack.deref_items, logs := ctx1.logs, success := success,
     result := ctx1.env.call.result }, ctx1)

/-- The sub-call driver `ExecutionContext::execute_call` of `src/lib.rs`
(`runner`-abstracted body, see `Opcode.executeWith`). Note where it
diverges from the spec's narrative: the value transfer is performed
**in place on the parent's state** before the child context is cloned,
and the failure branch keeps that post-transfer state. -/
def ExecutionContext.execute_callWith
    (runner : Bool → ExecutionContext → EOut (EvmResult × ExecutionContext))
    (ctx : ExecutionContext) (call : Call) :
    EOut (CallResult × ExecutionContext) :=
  match State.transfer ctx.state call.originator call.recipient call.value with
  | .error _ => .ok (⟨0, []⟩, ctx)
  | .ok st1 =>
    let ctx1 := { ctx with state := st1 }
    let code := State.code st1 call.code_target
    if code.isEmpty then .ok (⟨1, []⟩, ctx1)
    else do
      let sub := ctx1.sub_ctx code call
      let (call_result, subFin) ← runner true sub
      if call_result.success then
        .ok (⟨1, call_result.result⟩,
          { ctx1 with stack := subFin.stack, memory := subFin.memory,
                      state := if call.is_static then ctx1.state else subFin.state,
                      return_data := call_result.result })
      else
        .ok (⟨0, call_result.result⟩, ctx1)

/-- The dispatcher `Opcode::execute` of `src/opcode.rs`: one arm per
opcode, returning the success flag together with the mutated frame.
Opcode arms that no claim touches (`SHA3`, the copy family, the
block-environment reads, shifts, `CREATE`'s address derivation) return
`.unmodelled`; `CREATE2` is `todo!()` in the source, i.e. a panic.
So that the definitions compute by plain reduction, the recursion into
the run loop is abstracted as the `runner` argument; the fuel-indexed
wrapper `Opcode.execute` below ties the knot. -/
def Opcode.executeWith
    (runner : Bool → ExecutionContext → EOut (EvmResult × ExecutionContext))
    (op : Opcode) (ctx : ExecutionContext) :
    EOut (Bool × ExecutionContext) :=
  match op with
  | .STOP =>
    .ok (true, { ctx with gas := ctx.gas + Opcode.fix_gas .STOP, stopped := true,
                          pc := ctx.pc + 1 })
  | .ADD => do
    let (a, s1) ← ctx.stack.pop
    let (b, s2) ← s1.pop
    let s3 ← s2.push ((a + b) % W)
    .ok (true, { ctx with stack := s3, gas := ctx.gas + 3, pc := ctx.pc + 1 })
  | .MUL => do
    let (a, s1) ← ctx.stack.pop
    let (b, s2) ← s1.pop
    let s3 ← s2.push ((a * b) % W)
    .ok (true, { ctx with stack := s3, gas := ctx.gas + 5, pc := ctx.pc + 1 })
  | .SUB => do
    let (a, s1) ← ctx.stack.pop
    let (b, s2) ← s1.pop
    let s3 ← s2.push ((a + (W - b)) % W)
    .ok (true, { ctx with stack := s3, gas := ctx.gas + 3, pc := ctx.pc + 1 })
  | .DIV => do
    let (a, s1) ← ctx.stack.pop
    let (b, s2) ← s1.pop
    let s3 ← s2.push (divOp a b)
    .ok (true, { ctx with stack := s3, gas := ctx.gas + 5, pc := ctx.pc + 1 })
  | .SDIV => do
    let (a, s1) ← ctx.stack.pop
    let (b, s2) ← s1.pop
    let s3 ← s2.push (sdivOp a b)
    .ok (true, { ctx with stack := s3, gas := ctx.gas + 5, pc := ctx.pc + 1 })
  | .MOD => do
    let (a, s1) ← ctx.stack.pop
    let (b, s2) ← s1.pop
    let s3 ← s2.push (modOp a b)
    .ok (true, { ctx with stack := s3, gas := ctx.gas + 5, pc := ctx.pc + 1 })
  | .SMOD => do
    let (a, s1) ← ctx.stack.pop
    let (b, s2) ← s1.pop
    let s3 ← s2.push (smodOp a b)
    .ok (true, { ctx with stack := s3, gas := ctx.gas + 5, pc := ctx.pc + 1 })
  | .ADDMOD => do
    let (a, s1) ← ctx.stack.pop
    let (b, s2) ← s1.pop
    let (c, s3) ← s2.pop
    let s4 ← s3.push (addmodOp a b c)
    .ok (true, { ctx with stack := s4, gas := ctx.gas + 8, pc := ctx.pc + 1 })
  | .MULMOD => do
    let (a, s1) ← ctx.stack.pop
    let (b, s2) ← s1.pop
    let (c, s3) ← s2.pop
    let s4 ← s3.push (mulmodOp a b c)
    .ok (true, { ctx with stack := s4, gas := ctx.gas + 8, pc := ctx.pc + 1 })
  | .EXP => do
    let (a, s1) ← ctx.stack.pop
    let (b, s2) ← s1.pop
    let var_gas := if b ≠ 0 then 50 * (Nat.log2 b + 1 + 7) else 0
    let s3 ← s2.push (a ^ b % W)
    .ok (true, { ctx with stack := s3, gas := ctx.gas + 10 + var_gas, pc := ctx.pc + 1 })
  | .SIGNEXTEND => do
    let (e, s1) ← ctx.stack.popUsize
    let (num, s2) ← s1.pop
    let id := (e + 1) * 8
    if 256 < id then .error .crash
    else
      let r := if num.testBit (id - 1) then Nat.lor ((W - 1) * 2 ^ id % W) num else num
      let s3 ← s2.push r
      .ok (true, { ctx with stack := s3, gas := ctx.gas + 5, pc := ctx.pc + 1 })
  | .LT => do
    let (a, s1) ← ctx.stack.pop
    let (b, s2) ← s1.pop
    let s3 ← s2.push (if a < b then 1 else 0)
    .ok (true, { ctx with stack := s3, gas := ctx.gas + 3, pc := ctx.pc + 1 })
  | .GT => do
    let (a, s1) ← ctx.stack.pop
    let (b, s2) ← s1.pop
    let s3 ← s2.push (if a > b then 1 else 0)
    .ok (true, { ctx with stack := s3, gas := ctx.gas + 3, pc := ctx.pc + 1 })
  | .SLT => do
    let (a, s1) ← ctx.stack.pop
    let (b, s2) ← s1.pop
    let s3 ← s2.push (sltOp a b)
    .ok (true, { ctx with stack := s3, gas := ctx.gas + 3, pc := ctx.pc + 1 })
  | .SGT => do
    let (a, s1) ← ctx.stack.pop
    let (b, s2) ← s1.pop
    let s3 ← s2.push (sgtOp a b)
    .ok (true, { ctx with stack := s3, gas := ctx.gas + 3, pc := ctx.pc + 1 })
  | .EQ => do
    let (a, s1) ← ctx.stack.pop
    let (b, s2) ← s1.pop
    let s3 ← s2.push (if a = b then 1 else 0)
    .ok (true, { ctx with stack := s3, gas := ctx.gas + 3, pc := ctx.pc + 1 })
  | .ISZERO => do
    let (a, s1) ← ctx.stack.pop
    let s2 ← s1.push (if a = 0 then 1 else 0)
    .ok (true, { ctx with stack := s2, pc := ctx.pc + 1 })
  | .AND => do
    let (a, s1) ← ctx.stack.pop
    let (b, s2) ← s1.pop
    let s3 ← s2.push (Nat.land a b)
    .ok (true, { ctx with stack := s3, gas := ctx.gas + 3, pc := ctx.pc + 1 })
  | .OR => do
    let (a, s1) ← ctx.stack.pop
    let (b, s2) ← s1.pop
    let s3 ← s2.push (Nat.lor a b)
    .ok (true, { ctx with stack := s3, gas := ctx.gas + 3, pc := ctx.pc + 1 })
  | .XOR => do
    let (a, s1) ← ctx.stack.pop
    let (b, s2) ← s1.pop
    let s3 ← s2.push (Nat.xor a b)
    .ok (true, { ctx with stack := s3, gas := ctx.gas + 3, pc := ctx.pc + 1 })
  | .NOT => do
    let (a, s1) ← ctx.stack.pop
    let s2 ← s1.push (notW a)
    .ok (true, { ctx with stack := s2, gas := ctx.gas + 3, pc := ctx.pc + 1 })
  | .BYTE => do
    let (index, s1) ← ctx.stack.popUsize
    let (word, s2) ← s1.pop
    let s3 ← s2.push (getByte word index)
    .ok (true, { ctx with stack := s3, gas := ctx.gas + 3, pc := ctx.pc + 1 })
  | .ADDRESS => do
    let s1 ← ctx.stack.push ctx.env.call.recipient
    .ok (true, { ctx with stack := s1, gas := ctx.gas + 2, pc := ctx.pc + 1 })
  | .BALANCE => do
    let (aw, s1) ← ctx.stack.pop
    let s2 ← s1.push (State.balance ctx.state (toAddress aw))
    .ok (true, { ctx with stack := s2, pc := ctx.pc + 1 })
  | .ORIGIN => do
    let s1 ← ctx.stack.push ctx.env.call.originator
    .ok (true, { ctx with stack := s1, pc := ctx.pc + 1 })
  | .CALLER => do
    let s1 ← ctx.stack.push ctx.env.call.sender
    .ok (true, { ctx with stack := s1, pc := ctx.pc + 1 })
  | .CALLVALUE => do
    let s1 ← ctx.stack.push ctx.env.call.value
    .ok (true, { ctx with stack := s1, pc := ctx.pc + 1 })
  | .CALLDATASIZE => do
    let s1 ← ctx.stack.push ((ctx.env.call.data.length + 31) / 32 * 32)
    .ok (true, { ctx with stack := s1, pc := ctx.pc + 1 })
  | .CODESIZE => do
    let s1 ← ctx.stack.push ctx.code.length
    .ok (true, { ctx with stack := s1, pc := ctx.pc + 1 })
  | .GASPRICE => do
    let s1 ← ctx.stack.push ctx.env.call.gas_price
    .ok (true, { ctx with stack := s1, pc := ctx.pc + 1 })
  | .EXTCODESIZE => do
    let (aw, s1) ← ctx.stack.pop
    let s2 ← s1.push (State.code_size ctx.state (toAddress aw))
    .ok (true, { ctx with stack := s2, pc := ctx.pc + 1 })
  | .RETURNDATASIZE => do
    let s1 ← ctx.stack.push ctx.return_data.length
    .ok (true, { ctx with stack := s1, pc := ctx.pc + 1 })
  | .BLOCKHASH => do
    let (_, s1) ← ctx.stack.pop
    let s2 ← s1.push 0
    .ok (true, { ctx with stack := s2, pc := ctx.pc + 1 })
  | .SELFBALANCE => do
    let s1 ← ctx.stack.push (State.balance ctx.state ctx.env.call.recipient)
    .ok (true, { ctx with stack := s1, pc := ctx.pc + 1 })
  | .POP => do
    let (_, s1) ← ctx.stack.pop
    .ok (true, { ctx with stack := s1, gas := ctx.gas + 2, pc := ctx.pc + 1 })
  | .MLOAD => do
    let (off, s1) ← ctx.stack.popUsize
    let gas1 := ctx.gas + 3 * SpecMemory.expansion ctx.memory off 32
    let (bytes, m1) := SpecMemory.load ctx.memory off 32
    let s2 ← s1.push (beWord bytes)
    .ok (true, { ctx with stack := s2, memory := m1, gas := gas1, pc := ctx.pc + 1 })
  | .MSTORE => do
    let (off, s1) ← ctx.stack.popUsize
    let (value, s2) ← s1.pop
    let gas1 := ctx.gas + 3 * SpecMemory.expansion ctx.memory off 32
    let m1 := SpecMemory.store ctx.memory off (wordBytes32 value)
    .ok (true, { ctx with stack := s2, memory := m1, gas := gas1, pc := ctx.pc + 1 })
  | .MSTORE8 => do
    let (off, s1) ← ctx.stack.popUsize
    let (value, s2) ← s1.pop
    let gas1 := ctx.gas + 3 * SpecMemory.expansion ctx.memory off 1
    let m1 := SpecMemory.store ctx.memory off [value % 256]
    .ok (true, { ctx with stack := s2, memory := m1, gas := gas1, pc := ctx.pc + 1 })
  | .SLOAD => do
    let (key, s1) ← ctx.stack.pop
    let s2 ← s1.push (State.storage_load ctx.state ctx.target key)
    .ok (true, { ctx with stack := s2, pc := ctx.pc + 1 })
  | .SSTORE =>
    if ctx.env.call.is_static then .ok (false, ctx)
    else do
      let (key, s1) ← ctx.stack.pop
      let (value, s2) ← s1.pop
      .ok (true, { ctx with stack := s2,
                            state := State.storage_store ctx.state ctx.target key value,
                            pc := ctx.pc + 1 })
  | .JUMP => do
    let (jumpdest, s1) ← ctx.stack.popUsize
    let gas1 := ctx.gas + 8
    match validate_jumpdest ctx.code jumpdest with
    | .ok true => .ok (true, { ctx with stack := s1, gas := gas1, pc := jumpdest })
    | .ok false => .ok (false, { ctx with stack := s1, gas := gas1 })
    | .error e => .error e
  | .JUMPI => do
    let (jumpdest, s1) ← ctx.stack.popUsize
    let (condition, s2) ← s1.pop
    let gas1 := ctx.gas + 10
    if condition = 0 then .ok (true, { ctx with stack := s2, gas := gas1, pc := ctx.pc + 1 })
    else
      match validate_jumpdest ctx.code jumpdest with
      | .ok true => .ok (true, { ctx with stack := s2, gas := gas1, pc := jumpdest })
      | .ok false => .ok (false, { ctx with stack := s2, gas := gas1 })
      | .error e => .error e
  | .PC => do
    let s1 ← ctx.stack.push ctx.pc
    .ok (true, { ctx with stack := s1, gas := ctx.gas + 2, pc := ctx.pc + 1 })
  | .MSIZE => do
    let s1 ← ctx.stack.push (SpecMemory.size ctx.memory)
    .ok (true, { ctx with stack := s1, gas := ctx.gas + 2, pc := ctx.pc + 1 })
  | .GAS => do
    let s1 ← ctx.stack.push (W - 1)
    .ok (true, { ctx with stack := s1, gas := ctx.gas + 2, pc := ctx.pc + 1 })
  | .JUMPDEST =>
    .ok (true, { ctx with gas := ctx.gas + 1, pc := ctx.pc + 1 })
  | .PUSH n =>
    let gas1 := ctx.gas + 3
    if ctx.pc + 1 + n ≤ ctx.code.length then do
      let value := (ctx.code.drop (ctx.pc + 1)).take n
      let s1 ← ctx.stack.push (beWord value)
      .ok (true, { ctx with stack := s1, gas := gas1, pc := ctx.pc + 1 + n })
    else .error .crash
  | .DUP n =>
    let gas1 := ctx.gas + 3
    if ctx.stack.depth < n then .error .crash
    else
      match ctx.stack.get_item (ctx.stack.depth - n) with
      | some value => do
        let s1 ← ctx.stack.push value
        .ok (true, { ctx with stack := s1, gas := gas1, pc := ctx.pc + 1 })
      | none => .error .crash
  | .SWAP n => do
    let s1 ← ctx.stack.swap n
    .ok (true, { ctx with stack := s1, gas := ctx.gas + 3, pc := ctx.pc + 1 })
  | .LOG n => do
    let (off, s1) ← ctx.stack.popUsize
    let (size, s2) ← s1.popUsize
    let (topics, s3) ← s2.popN n
    let (data, m1) := SpecMemory.load ctx.memory off size
    let log : Log := ⟨ctx.target, data, topics⟩
    .ok (true, { ctx with stack := s3, memory := m1, logs := ctx.logs ++ [log],
                          pc := ctx.pc + 1 })
  | .CREATE => do
    let (value, s1) ← ctx.stack.pop
    let (_, s2) ← s1.popUsize
    let (_, s3) ← s2.popUsize
    if ctx.env.call.is_static && value ≠ 0 then .ok (false, { ctx with stack := s3 })
    else if !ctx.env.call.is_static
            && State.balance ctx.state ctx.env.call.originator < value then
      .ok (false, { ctx with stack := s3 })
    else .error .unmodelled
  | .CALL => do
    let (gas, s1) ← ctx.stack.pop
    let (aw, s2) ← s1.pop
    let (value, s3) ← s2.pop
    let (args_offset, s4) ← s3.popUsize
    let (args_size, s5) ← s4.popUsize
    let (ret_offset, s6) ← s5.popUsize
    let (ret_size, s7) ← s6.popUsize
    let ctx := { ctx with stack := s7 }
    if ctx.env.call.is_static && value ≠ 0 then .ok (false, ctx)
    else if !ctx.env.call.is_static
            && State.balance ctx.state ctx.env.call.originator < value then
      .ok (false, ctx)
    else do
      let ctx := { ctx with gas := ctx.gas + Opcode.fix_gas .CALL }
      let (data, m1) := SpecMemory.load ctx.memory args_offset args_size
      let ctx := { ctx with memory := m1 }
      let address := toAddress aw
      let call := Call.new ctx.target address ctx.env.call.originator gas
        ctx.gas_left address data value false
      let (call_result, ctx1) ← ExecutionContext.execute_callWith runner ctx call
      if ret_size > call_result.result.length then .error .crash
      else do
        let data2 := call_result.result.take ret_size
        let m2 := SpecMemory.store ctx1.memory ret_offset data2
        let s8 ← ctx1.stack.push call_result.success
        .ok (true, { ctx1 with stack := s8, memory := m2, pc := ctx1.pc + 1 })
  | .CALLCODE => do
    let (gas, s1) ← ctx.stack.pop
    let (aw, s2) ← s1.pop
    let (value, s3) ← s2.pop
    let (args_offset, s4) ← s3.popUsize
    let (args_size, s5) ← s4.popUsize
    let (ret_offset, s6) ← s5.popUsize
    let (ret_size, s7) ← s6.popUsize
    let ctx := { ctx with stack := s7, gas := ctx.gas + Opcode.fix_gas .CALLCODE }
    let (data, m1) := SpecMemory.load ctx.memory args_offset args_size
    let ctx := { ctx with memory := m1 }
    let address := toAddress aw
    let call := Call.new ctx.target address ctx.env.call.originator gas
      ctx.gas_left address data value false
    let (call_result, ctx1) ← ExecutionContext.execute_callWith runner ctx call
    if ret_size > call_result.result.length then .error .crash
    else do
      let data2 := call_result.result.take ret_size
      let m2 := SpecMemory.store ctx1.memory ret_offset data2
      let s8 ← ctx1.stack.push call_result.success
      .ok (true, { ctx1 with stack := s8, memory := m2, pc := ctx1.pc + 1 })
  | .RETURN => do
    let (off, s1) ← ctx.stack.popUsize
    let (size, s2) ← s1.popUsize
    let gas1 := ctx.gas + 0 * SpecMemory.expansion ctx.memory off size
    let (value, m1) := SpecMemory.load ctx.memory off size
    .ok (true, { ctx with stack := s2, memory := m1, gas := gas1,
                          env := { ctx.env with call := { ctx.env.call with result := value } },
                          pc := ctx.pc + 1 })
  | .DELEGATECALL => do
    let (gas, s1) ← ctx.stack.pop
    let (aw, s2) ← s1.pop
    let (args_offset, s3) ← s2.popUsize
    let (args_size, s4) ← s3.popUsize
    let (ret_offset, s5) ← s4.popUsize
    let (ret_size, s6) ← s5.popUsize
    let ctx := { ctx with stack := s6, gas := ctx.gas + Opcode.fix_gas .DELEGATECALL }
    let (data, m1) := SpecMemory.load ctx.memory args_offset args_size
    let ctx := { ctx with memory := m1 }
    let address := toAddress aw
    let call := Call.new ctx.target ctx.target ctx.env.call.originator gas
      ctx.gas_left address data 0 false
    let (call_result, ctx1) ← ExecutionContext.execute_callWith runner ctx call
    if call_result.success ≠ 0 then
      if ret_size > call_result.result.length then .error .crash
      else do
        let data2 := call_result.result.take ret_size
        let m2 := SpecMemory.store ctx1.memory ret_offset data2
        let s7 ← ctx1.stack.push call_result.success
        .ok (true, { ctx1 with stack := s7, memory := m2, pc := ctx1.pc + 1 })
    else do
      let s7 ← ctx1.stack.push call_result.success
      .ok (true, { ctx1 with stack := s7, pc := ctx1.pc + 1 })
  | .CREATE2 => .error .crash
  | .STATICCALL => do
    let (gas, s1) ← ctx.stack.pop
    let (aw, s2) ← s1.pop
    let (args_offset, s3) ← s2.popUsize
    let (args_size, s4) ← s3.popUsize
    let (ret_offset, s5) ← s4.popUsize
    let (ret_size, s6) ← s5.popUsize
    let ctx := { ctx with stack := s6, gas := ctx.gas + Opcode.fix_gas .STATICCALL }
    let (data, m1) := SpecMemory.load ctx.memory args_offset args_size
    let ctx := { ctx with memory := m1 }
    let address := toAddress aw
    let call := Call.new ctx.target address ctx.env.call.originator gas
      ctx.gas_left address data 0 true
    let (call_result, ctx1) ← ExecutionContext.execute_callWith runner ctx call
    if call_result.success ≠ 0 then
      if ret_size > call_result.result.length then .error .crash
      else do
        let data2 := call_result.result.take ret_size
        let m2 := SpecMemory.store ctx1.memory ret_offset data2
        let s7 ← ctx1.stack.push call_result.success
        .ok (true, { ctx1 with stack := s7, memory := m2, pc := ctx1.pc + 1 })
    else do
      let s7 ← ctx1.stack.push call_result.success
      .ok (true, { ctx1 with stack := s7, pc := ctx1.pc + 1 })
  | .REVERT => do
    let (off, s1) ← ctx.stack.popUsize
    let (size, s2) ← s1.popUsize
    let gas1 := ctx.gas + 0 * SpecMemory.expansion ctx.memory off size
    let (value, m1) := SpecMemory.load ctx.memory off size
    .ok (false, { ctx with stack := s2, memory := m1, gas := gas1,
                           env := { ctx.env with call := { ctx.env.call with result := value } },
                           pc := ctx.pc + 1 })
  | .INVALID =>
    .ok (false, { ctx with pc := ctx.pc + 1 })
  | .SELFDESTRUCT => do
    let (aw, s1) ← ctx.stack.pop
    let ctx := { ctx with stack := s1 }
    if ctx.env.call.is_static then .ok (false, ctx)
    else
      match State.transfer ctx.state ctx.target (toAddress aw)
        (State.balance ctx.state ctx.target) with
      | .ok st1 =>
        .ok (true, { ctx with state := st1, to_delete := ctx.to_delete ++ [ctx.target],
                              pc := ctx.pc + 1 })
      | .error _ => .ok (false, ctx)
  | _ => .error .unmodelled

/-- The loop `ExecutionContext::run` of `src/lib.rs`, indexed by fuel
(structural recursion, so that concrete runs compute by reduction). The
`success` argument is the loop's control variable (initially `true`).
Decoding an unknown byte is `try_into().unwrap()`, i.e. a crash. -/
def ExecutionContext.run : Nat → Bool → ExecutionContext →
    EOut (EvmResult × ExecutionContext)
  | 0, _, _ => .error .outOfFuel
  | fuel + 1, success, ctx =>
    if !success || ctx.stopped || ctx.pc ≥ ctx.code.length then
      .ok (ctx.finish success)
    else
      match decode (ctx.code.getD ctx.pc 0) with
      | none => .error .crash
      | some op => do
        let (s1, ctx1) ← Opcode.executeWith (fun s c => ExecutionContext.run fuel s c) op ctx
        ExecutionContext.run fuel s1 ctx1

/-- The fuel-indexed `Opcode::execute`: the dispatcher with the run loop
plugged in as the runner. -/
def Opcode.execute (fuel : Nat) (op : Opcode) (ctx : ExecutionContext) :
    EOut (Bool × ExecutionContext) :=
  Opcode.executeWith (fun s c => ExecutionContext.run fuel s c) op ctx

/-- The fuel-indexed `ExecutionContext::execute_call`. -/
def ExecutionContext.execute_call (ctx : ExecutionContext) (fuel : Nat) (call : Call) :
    EOut (CallResult × ExecutionContext) :=
  ExecutionContext.execute_callWith (fun s c => ExecutionContext.run fuel s c) ctx call

-- ---------------------------------------------------------------------------
-- Concrete test fixtures and observation helpers
-- ---------------------------------------------------------------------------

/-- A top-level test frame: environment call `call`, `target =
call.recipient` (as in `ExecutionContext::new`), the given code and
state, and a preloaded bottom-first stack. -/
def testCtx (code : List Nat) (call : Call) (st : State) (items : List Word) :
    ExecutionContext :=
  { env := ⟨call⟩, target := call.recipient, code := code, pc := 0,
    stack := ⟨items, 1024⟩, state := st, memory := [], gas := 0,
    return_data := [], logs := [], stopped := false, to_delete := [] }

/-- A plain non-static top-level call: sender `0xAA`, recipient (and so
executing contract) `0xCC`, transaction originator `0xA`. -/
def baseCall : Call := ⟨0xAA, 0xCC, 0xA, 0, 0, 0xCC, [], 0, false, []⟩

/-- The result half of a completed run. -/
def runResult (fuel : Nat) (ctx : ExecutionContext) : EOut EvmResult :=
  (ExecutionContext.run fuel true ctx).map Prod.fst

/-- The observable outcome of a single opcode step: success flag, the
frame's stack items (bottom-first) and its world state. -/
def stepOutcome (fuel : Nat) (op : Opcode) (ctx : ExecutionContext) :
    EOut (Bool × List Word × State) :=
  (Opcode.execute fuel op ctx).map (fun p => (p.1, p.2.stack.items, p.2.state))

/-- Fixture for C1: the transaction originator `0xA` holds balance 100;
account `0xB` holds the one-byte program `INVALID` (0xFE), which makes
any frame running it fail. -/
def c1State : State :=
  [(0xA, ⟨0xA, 100, 0, [], [], false⟩), (0xB, ⟨0xB, 0, 0, [0xFE], [], false⟩)]

/-- Fixture for C1: a frame about to execute `CALL` with value 5 to the
always-failing account `0xB` (stack, bottom-first: ret_size 0, ret_offset
0, args_size 0, args_offset 0, value 5, address 0xB, gas 0). -/
def c1Ctx : ExecutionContext := testCtx [0xF1] baseCall c1State [0, 0, 0, 0, 5, 0xB, 0]

/-- The post-transfer state of the C1 fixture: the originator debited by
the call value and the callee credited, exactly what `State::transfer`
performed on the parent's own state before the child was cloned. -/
def c1StateAfter : State :=
  [(0xA, ⟨0xA, 95, 0, [], [], false⟩), (0xB, ⟨0xB, 5, 0, [0xFE], [], false⟩)]

/-- Fixture for C2: a program consisting of the single byte `0x01` (ADD),
executed on an empty stack. -/
def c2Ctx : ExecutionContext := testCtx [0x01] baseCall [] []

/-- Fixture for C2 (decode): a program consisting of the single byte
`0x0C`, which is not in the opcode table. -/
def c2DecodeCtx : ExecutionContext := testCtx [0x0C] baseCall [] []

/-- Fixture for C3: account `0xB` holds `PUSH1 0x2A`, a child program that
terminates successfully leaving `0x2A` on its (inherited) stack. -/
def c3State : State := [(0xB, ⟨0xB, 0, 0, [0x60, 0x2A], [], false⟩)]

/-- Fixture for C3: a frame about to `CALL` (value 0, empty argument and
return areas) into account `0xB`. -/
def c3Ctx : ExecutionContext := testCtx [0xF1] baseCall c3State [0, 0, 0, 0, 0, 0xB, 0]

/-- Fixture for C4: `PUSH1 0 PUSH1 0 LOG0 INVALID` — emit an empty log,
then fail the frame. -/
def c4Ctx : ExecutionContext :=
  testCtx [0x60, 0x00, 0x60, 0x00, 0xA0, 0xFE] baseCall [] []

/-- Fixture for C6: `PUSH1 4 JUMP`, then the byte `0x0C` (not a valid
opcode) directly followed by `JUMPDEST` at offset 4. The target byte is
`0x5B` and the preceding byte is not a PUSH, so the claim's validity rule
accepts the jump. -/
def c6Ctx : ExecutionContext :=
  testCtx [0x60, 0x04, 0x56, 0x0C, 0x5B] baseCall [] []

/-- Fixture for C7: a parent frame whose own call has sender `0xAA` and
value 7, with target `0xCC`, about to `DELEGATECALL` into account `0xDD`
(stack, bottom-first: ret_size 0, ret_offset 0, args_size 0, args_offset
0, address 0xDD, gas 0). -/
def c7Call : Call := ⟨0xAA, 0xCC, 0xA, 0, 0, 0xCC, [], 7, false, []⟩

/-- Fixture for C7: account `0xDD` holds the one-byte program `CALLER`,
so the child pushes the sender of the delegate call context and the
parent (which adopts the child's stack) exposes it. -/
def c7State : State := [(0xDD, ⟨0xDD, 0, 0, [0x33], [], false⟩)]

/-- Fixture for C7 (CALLER probe). -/
def c7Ctx : ExecutionContext := testCtx [0xF4] c7Call c7State [0, 0, 0, 0, 0xDD, 0]

/-- Fixture for C7: the same frame with a `CALLVALUE` child program. -/
def c7bState : State := [(0xDD, ⟨0xDD, 0, 0, [0x34], [], false⟩)]

/-- Fixture for C7 (CALLVALUE probe). -/
def c7bCtx : ExecutionContext := testCtx [0xF4] c7Call c7bState [0, 0, 0, 0, 0xDD, 0]

/-- Fixture for C9: a program consisting of the single byte `0x60`
(PUSH1) with no immediate byte after it. -/
def c9Ctx : ExecutionContext := testCtx [0x60] baseCall [] []

/-- Fixture for C6 (second input): `PUSH1 4 JUMP` targeting the byte
`0x2A` inside the immediate of the following `PUSH1 0x2A` — the spec's
scenario of an invalid destination, which it says reverts. -/
def c6bCtx : ExecutionContext :=
  testCtx [0x60, 0x04, 0x56, 0x60, 0x2A, 0x5B] baseCall [] []

/-- Fixture for C9 (intact immediate): `PUSH1 0x2A`. -/
def c9okCtx : ExecutionContext := testCtx [0x60, 0x2A] baseCall [] []

/-- Fixture for C1/C3/C4 at the `execute_call` level: the parent frame
with the argument words already popped (empty stack). -/
def c1CtxPost : ExecutionContext := testCtx [0xF1] baseCall c1State []

/-- The call that the C1 fixture's CALL opcode constructs: sender = the
executing contract `0xCC`, recipient and code target `0xB`, originator
`0xA`, value 5, non-static. -/
def c1CallArg : Call := ⟨0xCC, 0xB, 0xA, 0, 0, 0xB, [], 5, false, []⟩

/-- Fixture for C3 at the `execute_call` level. -/
def c3CtxPost : ExecutionContext := testCtx [0xF1] baseCall c3State []

/-- The zero-value call into account `0xB` used by the C3 fixture. -/
def c3CallArg : Call := ⟨0xCC, 0xB, 0xA, 0, 0, 0xB, [], 0, false, []⟩

/-- Fixture for C4 (successful sub-call): account `0xB` holds
`PUSH1 0 PUSH1 0 LOG0`, a child program that emits one log and then
terminates successfully. -/
def c4bState : State := [(0xB, ⟨0xB, 0, 0, [0x60, 0x00, 0x60, 0x00, 0xA0], [], false⟩)]

/-- Fixture for C4: a frame about to `CALL` (value 0) into the logging
account `0xB`. -/
def c4bCtx : ExecutionContext := testCtx [0xF1] baseCall c4bState [0, 0, 0, 0, 0, 0xB, 0]

/-- Fixture for C7: the same probe account with an `ADDRESS` program. -/
def c7cState : State := [(0xDD, ⟨0xDD, 0, 0, [0x30], [], false⟩)]

/-- The observable outcome of a single opcode step including the frame's
memory: success flag, stack items (bottom-first), memory bytes. -/
def stepMemOutcome (fuel : Nat) (op : Opcode) (ctx : ExecutionContext) :
    EOut (Bool × List Word × List Nat) :=
  (Opcode.execute fuel op ctx).map (fun p => (p.1, p.2.stack.items, p.2.memory))

/-- Fixture for C3 (short return data): the same `CALL` into the
`PUSH1 0x2A` account, but requesting `ret_size = 1` while the child
returns no data (stack, bottom-first: ret_size 1, ret_offset 0,
args_size 0, args_offset 0, value 0, address 0xB, gas 0). -/
def c3CrashCtx : ExecutionContext :=
  testCtx [0xF1] baseCall c3State [1, 0, 0, 0, 0, 0xB, 0]

/-- Fixture for C3 (returning child): account `0xB` holds
`PUSH1 0xAB PUSH1 0 MSTORE8 PUSH1 2 PUSH1 0 RETURN`, a child that
writes the byte 0xAB to its memory and returns its first two memory
bytes `[0xAB, 0x00]`. -/
def c3RetState : State :=
  [(0xB, ⟨0xB, 0, 0, [0x60, 0xAB, 0x60, 0x00, 0x53, 0x60, 0x02, 0x60, 0x00, 0xF3], [], false⟩)]

/-- Fixture for C3: a frame about to `CALL` the returning child with
`ret_size = 2` and `ret_offset = 0`. -/
def c3RetCtx : ExecutionContext :=
  testCtx [0xF1] baseCall c3RetState [2, 0, 0, 0, 0, 0xB, 0]

-- ---------------------------------------------------------------------------
-- Spec-side reference definitions (for comparison with the code)
-- ---------------------------------------------------------------------------

/-- The spec's signed reading of a word: 256-bit two's complement, the
most-significant bit being the sign. -/
def toSigned (a : Word) : Int :=
  if a < 2 ^ 255 then (a : Int) else (a : Int) - (W : Int)

/-- The spec's SLT: push 1 when `a < b` as 256-bit two's-complement signed
integers. -/
def sltSpec (a b : Word) : Word := if toSigned a < toSigned b then 1 else 0

/-- The spec's SGT: push 1 when `a > b` as 256-bit two's-complement signed
integers. -/
def sgtSpec (a b : Word) : Word := if toSigned a > toSigned b then 1 else 0

-- ---------------------------------------------------------------------------
-- Helper lemmas (shared by the claim theorems below)
-- ---------------------------------------------------------------------------

theorem Stack.pop_mk_concat (l : List Word) (v : Word) (md : Nat) :
    Stack.pop ⟨l ++ [v], md⟩ = .ok (v, ⟨l, md⟩) := by
  simp [Stack.pop]

theorem Stack.push_mk (l : List Word) (v : Word) (md : Nat) (h : l.length ≠ md) :
    Stack.push ⟨l, md⟩ v = .ok ⟨l ++ [v], md⟩ := by
  simp [Stack.push, h]

theorem eout_bind_ok {α β : Type} (x : α) (f : α → EOut β) :
    (do let y ← (.ok x : EOut α); f y) = f x := rfl

theorem eout_bind_err {α β : Type} (e : Fault) (f : α → EOut β) :
    (do let y ← (.error e : EOut α); f y) = (.error e : EOut β) := rfl

theorem asUsize_lt (a : Word) (h : a < 2 ^ 64) : asUsize a = .ok a := by
  unfold asUsize
  rw [if_pos h]

theorem twosNeg_eq (a : Word) (ha : a < W) :
    twosNeg a = if a = 0 then 0 else W - a := by
  have key : ∀ x Wv : Nat, 1 ≤ Wv → x < Wv →
      (Wv - 1 - x + 1) % Wv = if x = 0 then 0 else Wv - x := by
    intro x Wv h1 h2
    rcases Nat.eq_zero_or_pos x with h | h
    · subst h
      have e : Wv - 1 - 0 + 1 = Wv := by omega
      rw [e, Nat.mod_self, if_pos rfl]
    · rw [if_neg (by omega)]
      have e : Wv - 1 - x + 1 = Wv - x := by omega
      rw [e, Nat.mod_eq_of_lt (by omega)]
  have hW : 1 ≤ W := by unfold W; exact Nat.one_le_two_pow
  unfold twosNeg notW
  exact key a W hW ha

theorem State.transfer_zero (s : State) (af at' : Addr) :
    State.transfer s af at' 0 = .ok s := rfl

theorem SpecMemory.load_zero (m : List Nat) : SpecMemory.load m 0 0 = ([], m) := rfl

theorem SpecMemory.store_nil_zero (m : List Nat) : SpecMemory.store m 0 [] = m := rfl

theorem run_succ (fuel : Nat) (success : Bool) (ctx : ExecutionContext) :
    ExecutionContext.run (fuel + 1) success ctx =
      (if !success || ctx.stopped || ctx.pc ≥ ctx.code.length then
        .ok (ctx.finish success)
      else
        match decode (ctx.code.getD ctx.pc 0) with
        | none => .error .crash
        | some op => do
          let (s1, ctx1) ← Opcode.executeWith (fun s c => ExecutionContext.run fuel s c) op ctx
          ExecutionContext.run fuel s1 ctx1) := rfl

theorem executeWith_DIV (runner : Bool → ExecutionContext → EOut (EvmResult × ExecutionContext))
    (ctx : ExecutionContext) :
    Opcode.executeWith runner .DIV ctx = (do
      let (a, s1) ← ctx.stack.pop
      let (b, s2) ← s1.pop
      let s3 ← s2.push (divOp a b)
      .ok (true, { ctx with stack := s3, gas := ctx.gas + 5, pc := ctx.pc + 1 })) := rfl

theorem executeWith_SDIV (runner : Bool → ExecutionContext → EOut (EvmResult × ExecutionContext))
    (ctx : ExecutionContext) :
    Opcode.executeWith runner .SDIV ctx = (do
      let (a, s1) ← ctx.stack.pop
      let (b, s2) ← s1.pop
      let s3 ← s2.push (sdivOp a b)
      .ok (true, { ctx with stack := s3, gas := ctx.gas + 5, pc := ctx.pc + 1 })) := rfl

theorem executeWith_MOD (runner : Bool → ExecutionContext → EOut (EvmResult × ExecutionContext))
    (ctx : ExecutionContext) :
    Opcode.executeWith runner .MOD ctx = (do
      let (a, s1) ← ctx.stack.pop
      let (b, s2) ← s1.pop
      let s3 ← s2.push (modOp a b)
      .ok (true, { ctx with stack := s3, gas := ctx.gas + 5, pc := ctx.pc + 1 })) := rfl

theorem executeWith_SMOD (runner : Bool → ExecutionContext → EOut (EvmResult × ExecutionContext))
    (ctx : ExecutionContext) :
    Opcode.executeWith runner .SMOD ctx = (do
      let (a, s1) ← ctx.stack.pop
      let (b, s2) ← s1.pop
      let s3 ← s2.push (smodOp a b)
      .ok (true, { ctx with stack := s3, gas := ctx.gas + 5, pc := ctx.pc + 1 })) := rfl

theorem executeWith_ADDMOD (runner : Bool → ExecutionContext → EOut (EvmResult × ExecutionContext))
    (ctx : ExecutionContext) :
    Opcode.executeWith runner .ADDMOD ctx = (do
      let (a, s1) ← ctx.stack.pop
      let (b, s2) ← s1.pop
      let (c, s3) ← s2.pop
      let s4 ← s3.push (addmodOp a b c)
      .ok (true, { ctx with stack := s4, gas := ctx.gas + 8, pc := ctx.pc + 1 })) := rfl

theorem executeWith_MULMOD (runner : Bool → ExecutionContext → EOut (EvmResult × ExecutionContext))
    (ctx : ExecutionContext) :
    Opcode.executeWith runner .MULMOD ctx = (do
      let (a, s1) ← ctx.stack.pop
      let (b, s2) ← s1.pop
      let (c, s3) ← s2.pop
      let s4 ← s3.push (mulmodOp a b c)
      .ok (true, { ctx with stack := s4, gas := ctx.gas + 8, pc := ctx.pc + 1 })) := rfl

theorem executeWith_SLT (runner : Bool → ExecutionContext → EOut (EvmResult × ExecutionContext))
    (ctx : ExecutionContext) :
    Opcode.executeWith runner .SLT ctx = (do
      let (a, s1) ← ctx.stack.pop
      let (b, s2) ← s1.pop
      let s3 ← s2.push (sltOp a b)
      .ok (true, { ctx with stack := s3, gas := ctx.gas + 3, pc := ctx.pc + 1 })) := rfl

theorem executeWith_SGT (runner : Bool → ExecutionContext → EOut (EvmResult × ExecutionContext))
    (ctx : ExecutionContext) :
    Opcode.executeWith runner .SGT ctx = (do
      let (a, s1) ← ctx.stack.pop
      let (b, s2) ← s1.pop
      let s3 ← s2.push (sgtOp a b)
      .ok (true, { ctx with stack := s3, gas := ctx.gas + 3, pc := ctx.pc + 1 })) := rfl

theorem executeWith_JUMP (runner : Bool → ExecutionContext → EOut (EvmResult × ExecutionContext))
    (ctx : ExecutionContext) :
    Opcode.executeWith runner .JUMP ctx = (do
      let (jumpdest, s1) ← ctx.stack.popUsize
      let gas1 := ctx.gas + 8
      match validate_jumpdest ctx.code jumpdest with
      | .ok true => .ok (true, { ctx with stack := s1, gas := gas1, pc := jumpdest })
      | .ok false => .ok (false, { ctx with stack := s1, gas := gas1 })
      | .error e => .error e) := rfl

theorem executeWith_PUSH (runner : Bool → ExecutionContext → EOut (EvmResult × ExecutionContext))
    (n : Nat) (ctx : ExecutionContext) :
    Opcode.executeWith runner (.PUSH n) ctx =
      (if ctx.pc + 1 + n ≤ ctx.code.length then do
        let value := (ctx.code.drop (ctx.pc + 1)).take n
        let s1 ← ctx.stack.push (beWord value)
        .ok (true, { ctx with stack := s1, gas := ctx.gas + 3, pc := ctx.pc + 1 + n })
      else .error .crash) := rfl

theorem executeWith_CALLER (runner : Bool → ExecutionContext → EOut (EvmResult × ExecutionContext))
    (ctx : ExecutionContext) :
    Opcode.executeWith runner .CALLER ctx = (do
      let s1 ← ctx.stack.push ctx.env.call.sender
      .ok (true, { ctx with stack := s1, pc := ctx.pc + 1 })) := rfl

theorem executeWith_CALLVALUE (runner : Bool → ExecutionContext → EOut (EvmResult × ExecutionContext))
    (ctx : ExecutionContext) :
    Opcode.executeWith runner .CALLVALUE ctx = (do
      let s1 ← ctx.stack.push ctx.env.call.value
      .ok (true, { ctx with stack := s1, pc := ctx.pc + 1 })) := rfl

theorem executeWith_ADDRESS (runner : Bool → ExecutionContext → EOut (EvmResult × ExecutionContext))
    (ctx : ExecutionContext) :
    Opcode.executeWith runner .ADDRESS ctx = (do
      let s1 ← ctx.stack.push ctx.env.call.recipient
      .ok (true, { ctx with stack := s1, gas := ctx.gas + 2, pc := ctx.pc + 1 })) := rfl

theorem executeWith_DELEGATECALL
    (runner : Bool → ExecutionContext → EOut (EvmResult × ExecutionContext))
    (ctx : ExecutionContext) :
    Opcode.executeWith runner .DELEGATECALL ctx = (do
      let (gas, s1) ← ctx.stack.pop
      let (aw, s2) ← s1.pop
      let (args_offset, s3) ← s2.popUsize
      let (args_size, s4) ← s3.popUsize
      let (ret_offset, s5) ← s4.popUsize
      let (ret_size, s6) ← s5.popUsize
      let ctx := { ctx with stack := s6, gas := ctx.gas + Opcode.fix_gas .DELEGATECALL }
      let (data, m1) := SpecMemory.load ctx.memory args_offset args_size
      let ctx := { ctx with memory := m1 }
      let address := toAddress aw
      let call := Call.new ctx.target ctx.target ctx.env.call.originator gas
        ctx.gas_left address data 0 false
      let (call_result, ctx1) ← ExecutionContext.execute_callWith runner ctx call
      if call_result.success ≠ 0 then
        if ret_size > call_result.result.length then .error .crash
        else do
          let data2 := call_result.result.take ret_size
          let m2 := SpecMemory.store ctx1.memory ret_offset data2
          let s7 ← ctx1.stack.push call_result.success
          .ok (true, { ctx1 with stack := s7, memory := m2, pc := ctx1.pc + 1 })
      else do
        let s7 ← ctx1.stack.push call_result.success
        .ok (true, { ctx1 with stack := s7, pc := ctx1.pc + 1 })) := rfl

theorem executeWith_CALL (runner : Bool → ExecutionContext → EOut (EvmResult × ExecutionContext))
    (ctx : ExecutionContext) :
    Opcode.executeWith runner .CALL ctx = (do
      let (gas, s1) ← ctx.stack.pop
      let (aw, s2) ← s1.pop
      let (value, s3) ← s2.pop
      let (args_offset, s4) ← s3.popUsize
      let (args_size, s5) ← s4.popUsize
      let (ret_offset, s6) ← s5.popUsize
      let (ret_size, s7) ← s6.popUsize
      let ctx := { ctx with stack := s7 }
      if ctx.env.call.is_static && value ≠ 0 then .ok (false, ctx)
      else if !ctx.env.call.is_static
              && State.balance ctx.state ctx.env.call.originator < value then
        .ok (false, ctx)
      else do
        let ctx := { ctx with gas := ctx.gas + Opcode.fix_gas .CALL }
        let (data, m1) := SpecMemory.load ctx.memory args_offset args_size
        let ctx := { ctx with memory := m1 }
        let address := toAddress aw
        let call := Call.new ctx.target address ctx.env.call.originator gas
          ctx.gas_left address data value false
        let (call_result, ctx1) ← ExecutionContext.execute_callWith runner ctx call
        if ret_size > call_result.result.length then .error .crash
        else do
          let data2 := call_result.result.take ret_size
          let m2 := SpecMemory.store ctx1.memory ret_offset data2
          let s8 ← ctx1.stack.push call_result.success
          .ok (true, { ctx1 with stack := s8, memory := m2, pc := ctx1.pc + 1 })) := rfl

theorem SpecMemory.load_eq (m : List Nat) (offset size : Nat) :
    SpecMemory.load m offset size =
      (((SpecMemory.grow m (offset + size)).drop offset).take size,
        SpecMemory.grow m (offset + size)) := rfl

-- ---------------------------------------------------------------------------
-- Claim theorems
-- ---------------------------------------------------------------------------

/-- C8: DIV, SDIV, MOD and SMOD push zero when the divisor is zero, and
ADDMOD and MULMOD push zero when the modulus is zero; none of these six
opcodes signals an error (each completes with success and just pushes its
result); and the ADDMOD/MULMOD intermediate is computed at 512-bit width,
where it never wraps, so the reduced result is exact and fits in 256
bits. -/
theorem c8_ok (a b : Word) (ha : a < W) (hb : b < W) :
    divOp a 0 = 0 ∧ sdivOp a 0 = 0 ∧ modOp a 0 = 0 ∧ smodOp a 0 = 0 ∧
    addmodOp a b 0 = 0 ∧ mulmodOp a b 0 = 0 ∧
    (a + b) % W512 = a + b ∧ (a * b) % W512 = a * b ∧
    (∀ c, c ≠ 0 → c < W → addmodOp a b c = (a + b) % c ∧ addmodOp a b c < W) ∧
    (∀ c, c ≠ 0 → c < W → mulmodOp a b c = (a * b) % c ∧ mulmodOp a b c < W) ∧
    (∀ fuel ctx rest, ctx.stack.items = rest ++ [b] ++ [a] →
      rest.length ≠ ctx.stack.max_depth →
      Opcode.execute fuel .DIV ctx = .ok (true,
        { ctx with stack := ⟨rest ++ [divOp a b], ctx.stack.max_depth⟩,
                   gas := ctx.gas + 5, pc := ctx.pc + 1 }) ∧
      Opcode.execute fuel .SDIV ctx = .ok (true,
        { ctx with stack := ⟨rest ++ [sdivOp a b], ctx.stack.max_depth⟩,
                   gas := ctx.gas + 5, pc := ctx.pc + 1 }) ∧
      Opcode.execute fuel .MOD ctx = .ok (true,
        { ctx with stack := ⟨rest ++ [modOp a b], ctx.stack.max_depth⟩,
                   gas := ctx.gas + 5, pc := ctx.pc + 1 }) ∧
      Opcode.execute fuel .SMOD ctx = .ok (true,
        { ctx with stack := ⟨rest ++ [smodOp a b], ctx.stack.max_depth⟩,
                   gas := ctx.gas + 5, pc := ctx.pc + 1 })) ∧
    (∀ fuel ctx rest c, ctx.stack.items = rest ++ [c] ++ [b] ++ [a] →
      rest.length ≠ ctx.stack.max_depth →
      Opcode.execute fuel .ADDMOD ctx = .ok (true,
        { ctx with stack := ⟨rest ++ [addmodOp a b c], ctx.stack.max_depth⟩,
                   gas := ctx.gas + 8, pc := ctx.pc + 1 }) ∧
      Opcode.execute fuel .MULMOD ctx = .ok (true,
        { ctx with stack := ⟨rest ++ [mulmodOp a b c], ctx.stack.max_depth⟩,
                   gas := ctx.gas + 8, pc := ctx.pc + 1 })) := by
  have hWW : W * W ≤ W512 := by
    unfold W W512
    rw [← pow_add]
  have h2W : 2 * W ≤ W512 := by
    unfold W W512
    rw [← pow_succ']
    exact Nat.pow_le_pow_right (by norm_num) (by norm_num)
  have hsum : a + b < W512 := by
    have h1 : a + b < 2 * W := by
      rw [two_mul]
      exact Nat.add_lt_add ha hb
    exact lt_of_lt_of_le h1 h2W
  have hprod : a * b < W512 :=
    lt_of_lt_of_le (Nat.mul_lt_mul'' ha hb) hWW
  refine ⟨rfl, rfl, rfl, rfl, rfl, rfl, Nat.mod_eq_of_lt hsum, Nat.mod_eq_of_lt hprod,
    ?_, ?_, ?_, ?_⟩
  · intro c hc hcW
    unfold addmodOp
    rw [if_neg hc, Nat.mod_eq_of_lt hsum]
    exact ⟨rfl, lt_trans (Nat.mod_lt _ (Nat.pos_of_ne_zero hc)) hcW⟩
  · intro c hc hcW
    unfold mulmodOp
    rw [if_neg hc, Nat.mod_eq_of_lt hprod]
    exact ⟨rfl, lt_trans (Nat.mod_lt _ (Nat.pos_of_ne_zero hc)) hcW⟩
  · intro fuel ctx rest hstack hmd
    have hs : ctx.stack = ⟨rest ++ [b] ++ [a], ctx.stack.max_depth⟩ := by rw [← hstack]
    refine ⟨?_, ?_, ?_, ?_⟩ <;>
      · rw [Opcode.execute]
        first
          | rw [executeWith_DIV] | rw [executeWith_SDIV]
          | rw [executeWith_MOD] | rw [executeWith_SMOD]
        rw [hs]
        simp only [Stack.pop_mk_concat, eout_bind_ok, Stack.push_mk _ _ _ hmd]
  · intro fuel ctx rest c hstack hmd
    have hs : ctx.stack = ⟨rest ++ [c] ++ [b] ++ [a], ctx.stack.max_depth⟩ := by rw [← hstack]
    refine ⟨?_, ?_⟩ <;>
      · rw [Opcode.execute]
        first | rw [executeWith_ADDMOD] | rw [executeWith_MULMOD]
        rw [hs]
        simp only [Stack.pop_mk_concat, eout_bind_ok, Stack.push_mk _ _ _ hmd]

/-- Witness for C8 at `a = 7`, `b = 2`, `c = 5`, on a concrete frame. -/
theorem c8_witness :
    divOp 7 0 = 0 ∧ addmodOp 7 2 0 = 0 ∧
    Opcode.execute 0 .DIV (testCtx [0x04] baseCall [] ([] ++ [2] ++ [7])) = .ok (true,
      { testCtx [0x04] baseCall [] ([] ++ [2] ++ [7]) with
        stack := ⟨[] ++ [divOp 7 2],
          (testCtx [0x04] baseCall [] ([] ++ [2] ++ [7])).stack.max_depth⟩,
        gas := (testCtx [0x04] baseCall [] ([] ++ [2] ++ [7])).gas + 5,
        pc := (testCtx [0x04] baseCall [] ([] ++ [2] ++ [7])).pc + 1 }) ∧
    Opcode.execute 0 .ADDMOD (testCtx [0x08] baseCall [] ([] ++ [5] ++ [2] ++ [7])) =
      .ok (true,
      { testCtx [0x08] baseCall [] ([] ++ [5] ++ [2] ++ [7]) with
        stack := ⟨[] ++ [addmodOp 7 2 5],
          (testCtx [0x08] baseCall [] ([] ++ [5] ++ [2] ++ [7])).stack.max_depth⟩,
        gas := (testCtx [0x08] baseCall [] ([] ++ [5] ++ [2] ++ [7])).gas + 8,
        pc := (testCtx [0x08] baseCall [] ([] ++ [5] ++ [2] ++ [7])).pc + 1 }) := by
  have h := c8_ok 7 2 (by unfold W; norm_num) (by unfold W; norm_num)
  obtain ⟨h1, -, -, -, h5, -, -, -, -, -, h11, h12⟩ := h
  exact ⟨h1, h5,
    (h11 0 (testCtx [0x04] baseCall [] ([] ++ [2] ++ [7])) [] rfl (by decide)).1,
    (h12 0 (testCtx [0x08] baseCall [] ([] ++ [5] ++ [2] ++ [7])) [] 5 rfl (by decide)).1⟩

/-- C10: `Memory::store` of `src/memory.rs` writes the whole value
(growing the buffer to `offset + len` with zero fill when needed) exactly
when the value's length is a multiple of 32; for any other length the
destination slice has length `floor(len/32)*32 ≠ len` and the
`copy_from_slice` panics instead of writing a trailing partial word. -/
theorem c10_store (m : List Nat) (offset : Nat) (value : List Nat) :
    (value.length % 32 = 0 →
      ∃ m', Memory.store m offset value = some m' ∧
        m'.length = max (offset + value.length) m.length ∧
        (∀ i, i < value.length → m'.getD (offset + i) 0 = value.getD i 0) ∧
        (∀ i, i < offset → m'.getD i 0 = if i < m.length then m.getD i 0 else 0) ∧
        (∀ i, offset + value.length ≤ i → m'.getD i 0 = if i < m.length then m.getD i 0 else 0))
    ∧ (value.length % 32 ≠ 0 → Memory.store m offset value = none) := by
  constructor
  · intro hmod
    have hlen : value.length / 32 * 32 = value.length := Nat.div_mul_cancel (Nat.dvd_of_mod_eq_zero hmod)
    set m1 := if offset + value.length > m.length
      then m ++ List.replicate (offset + value.length - m.length) 0 else m with hm1
    have hm1len : m1.length = max (offset + value.length) m.length := by
      rw [hm1]
      split
      · simp; omega
      · simp; omega
    have hoff : offset + value.length ≤ m1.length := by omega
    refine ⟨m1.take offset ++ value ++ m1.drop (offset + value.length), ?_, ?_, ?_, ?_, ?_⟩
    · simp only [Memory.store]
      rw [hlen, if_pos rfl, ← hm1]
    · have h1 : (m1.take offset).length = offset := by
        rw [List.length_take]; omega
      simp [h1]
      omega
    · intro i hi
      have h1 : (m1.take offset).length = offset := by
        rw [List.length_take]; omega
      rw [List.append_assoc, List.getD_append_right _ _ _ _ (by omega),
        h1, Nat.add_sub_cancel_left, List.getD_append _ _ _ _ hi]
    · intro i hi
      have h1 : (m1.take offset).length = offset := by
        rw [List.length_take]; omega
      rw [List.append_assoc, List.getD_append _ _ _ _ (by omega)]
      have h2 : (m1.take offset).getD i 0 = m1.getD i 0 := by
        rw [List.getD_eq_getElem _ _ (by rw [h1]; omega), List.getD_eq_getElem _ _ (by omega)]
        simp [List.getElem_take]
      rw [h2, hm1]
      split
      · rename_i hgrow
        split
        · rename_i him
          rw [List.getD_append _ _ _ _ him]
        · rename_i him
          rw [List.getD_append_right _ _ _ _ (by omega)]
          simp [List.getD]
      · rename_i hgrow
        split
        · rfl
        · rename_i him
          rw [List.getD_eq_default]
          omega
    · intro i hi
      have h1 : (m1.take offset).length = offset := by
        rw [List.length_take]; omega
      rw [List.append_assoc, List.getD_append_right _ _ _ _ (by omega), h1,
        List.getD_append_right _ _ _ _ (by omega)]
      have hdrop : (m1.drop (offset + value.length)).getD (i - offset - value.length) 0
          = m1.getD i 0 := by
        by_cases hlt : i < m1.length
        · rw [List.getD_eq_getElem _ _ (by rw [List.length_drop]; omega),
            List.getD_eq_getElem _ _ hlt]
          simp [List.getElem_drop]
          congr 1
          omega
        · rw [List.getD_eq_default _ _ (by rw [List.length_drop]; omega),
            List.getD_eq_default _ _ (by omega)]
      rw [hdrop, hm1]
      split
      · rename_i hgrow
        split
        · rename_i him
          rw [List.getD_append _ _ _ _ him]
        · rename_i him
          rw [List.getD_append_right _ _ _ _ (by omega)]
          simp [List.getD]
      · rename_i hgrow
        split
        · rfl
        · rename_i him
          rw [List.getD_eq_default]
          omega
  · intro hmod
    unfold Memory.store
    have : ¬ value.length = value.length / 32 * 32 := by
      intro h
      exact hmod (by omega)
    simp [this]

/-- Witness for C10: a 32-byte value is stored whole; the one-byte value
an MSTORE8 would hand over panics. -/
theorem c10_witness :
    (Memory.store [] 0 (List.replicate 32 7)).isSome ∧ Memory.store [5] 0 [9] = none := by
  constructor
  · obtain ⟨m1, hm1, -, -, -, -⟩ := (c10_store [] 0 (List.replicate 32 7)).1 (by decide)
    rw [hm1]
    rfl
  · exact (c10_store [5] 0 [9]).2 (by decide)


theorem twosNeg_lt_iff (a b : Word) (ha : a < W) (hb : b < W) :
    (twosNeg b < twosNeg a) ↔ (a ≠ 0 ∧ (b = 0 ∨ a < b)) := by
  rw [twosNeg_eq a ha, twosNeg_eq b hb]
  have hW : 1 ≤ W := by unfold W; exact Nat.one_le_two_pow
  have key : ∀ x y Wv : Nat, 1 ≤ Wv → x < Wv → y < Wv →
      (((if y = 0 then 0 else Wv - y) < (if x = 0 then 0 else Wv - x)) ↔
        (x ≠ 0 ∧ (y = 0 ∨ x < y))) := by
    intro x y Wv h1 hx hy
    by_cases hx0 : x = 0
    · simp [hx0]
    · by_cases hy0 : y = 0
      · simp [hx0, hy0]
        omega
      · simp [hx0, hy0]
        omega
  exact key a b W hW ha hb

/-- C5 (amended): SLT pushes 1 exactly when `a ≠ 0` and (`b = 0` or
`a < b` as unsigned 256-bit integers), and SGT pushes 1 exactly when
`b ≠ 0` and (`a = 0` or `a > b` unsigned) — the unsigned comparison of
the two's-complement negations that the code computes, which agrees with
the claimed signed comparison only when both operands are nonzero and
have the same sign. -/
theorem c5_amended (a b : Word) (ha : a < W) (hb : b < W) :
    sltOp a b = (if a ≠ 0 ∧ (b = 0 ∨ a < b) then 1 else 0) ∧
    sgtOp a b = (if b ≠ 0 ∧ (a = 0 ∨ b < a) then 1 else 0) ∧
    (∀ fuel ctx rest, ctx.stack.items = rest ++ [b] ++ [a] →
      rest.length ≠ ctx.stack.max_depth →
      Opcode.execute fuel .SLT ctx = .ok (true,
        { ctx with stack := ⟨rest ++ [sltOp a b], ctx.stack.max_depth⟩,
                   gas := ctx.gas + 3, pc := ctx.pc + 1 }) ∧
      Opcode.execute fuel .SGT ctx = .ok (true,
        { ctx with stack := ⟨rest ++ [sgtOp a b], ctx.stack.max_depth⟩,
                   gas := ctx.gas + 3, pc := ctx.pc + 1 })) := by
  refine ⟨?_, ?_, ?_⟩
  · unfold sltOp
    by_cases h : a ≠ 0 ∧ (b = 0 ∨ a < b)
    · rw [if_pos ((twosNeg_lt_iff a b ha hb).mpr h), if_pos h]
    · rw [if_neg (fun hlt => h ((twosNeg_lt_iff a b ha hb).mp hlt)), if_neg h]
  · unfold sgtOp
    by_cases h : b ≠ 0 ∧ (a = 0 ∨ b < a)
    · rw [if_pos ((twosNeg_lt_iff b a hb ha).mpr h), if_pos h]
    · rw [if_neg (fun hlt => h ((twosNeg_lt_iff b a hb ha).mp hlt)), if_neg h]
  · intro fuel ctx rest hstack hmd
    have hs : ctx.stack = ⟨rest ++ [b] ++ [a], ctx.stack.max_depth⟩ := by rw [← hstack]
    constructor
    · rw [Opcode.execute, executeWith_SLT, hs]
      simp only [Stack.pop_mk_concat, eout_bind_ok, Stack.push_mk _ _ _ hmd]
    · rw [Opcode.execute, executeWith_SGT, hs]
      simp only [Stack.pop_mk_concat, eout_bind_ok, Stack.push_mk _ _ _ hmd]

/-- Counterexample for C5 as stated: with `a = 0` popped first and
`b = 1` popped second, the signed comparison says `0 < 1`, so SLT must
push 1 — the code pushes 0 (shown both on the arm and on a full run of
`PUSH1 1, PUSH1 0, SLT`); and with `a = 2^256 - 1` (signed −1) SGT
pushes 1 although −1 > 1 is false. -/
theorem c5_counterexample :
    sltOp 0 1 = 0 ∧ sltSpec 0 1 = 1 ∧
    sgtOp (W - 1) 1 = 1 ∧ sgtSpec (W - 1) 1 = 0 ∧
    runResult 10 (testCtx [0x60, 0x01, 0x60, 0x00, 0x12] baseCall [] []) =
      .ok ⟨[0], [], true, []⟩ := by
  refine ⟨rfl, rfl, ?_, ?_, rfl⟩
  · rfl
  · rfl

/-- Witness for C5's amended theorem at `a = 1`, `b = 2`. -/
theorem c5_witness : sltOp 1 2 = 1 ∧ sgtOp 1 2 = 0 := by
  have h := c5_amended 1 2 (by unfold W; norm_num) (by unfold W; norm_num)
  constructor
  · rw [h.1]
    rfl
  · rw [h.2.1]
    rfl


theorem Stack.push_ne (s : Stack) (v : Word) (h : s.items.length ≠ s.max_depth) :
    Stack.push s v = .ok ⟨s.items ++ [v], s.max_depth⟩ := by
  unfold Stack.push
  rw [if_neg h]

/-- C2 (amended): the three listed program-level errors do **not**
finalize the frame with success=false — each aborts the host process
(a Rust panic, `.crash`): pushing onto a full stack panics, popping an
empty stack panics, and a byte that decodes to no opcode makes the run
loop panic on `try_into().unwrap()`. -/
theorem c2_amended :
    (∀ (s : Stack) (v : Word), s.items.length = s.max_depth →
      Stack.push s v = .error .crash) ∧
    (∀ s : Stack, s.items = [] → Stack.pop s = .error .crash) ∧
    (∀ (fuel : Nat) (ctx : ExecutionContext), ctx.stopped = false →
      ctx.pc < ctx.code.length → decode (ctx.code.getD ctx.pc 0) = none →
      ExecutionContext.run (fuel + 1) true ctx = .error .crash) := by
  refine ⟨?_, ?_, ?_⟩
  · intro s v h
    unfold Stack.push
    rw [if_pos h]
  · intro s h
    simp [Stack.pop, h]
  · intro fuel ctx hstop hpc hdec
    rw [run_succ, hdec]
    have hc : (!true || ctx.stopped || decide (ctx.pc ≥ ctx.code.length)) = false := by
      simp [hstop]
      omega
    rw [hc]
    rfl

/-- Counterexample for C2 as stated: running the one-byte program `ADD`
(pop of an empty stack), running the undecodable byte `0x0C`, and pushing
onto a stack of 1024 items each crash instead of producing a
`success = false` result. -/
theorem c2_counterexample :
    ExecutionContext.run 2 true c2Ctx = .error .crash ∧
    ExecutionContext.run 2 true c2DecodeCtx = .error .crash ∧
    Stack.push ⟨List.replicate 1024 0, 1024⟩ 7 = .error .crash := by
  refine ⟨rfl, rfl, ?_⟩
  unfold Stack.push
  rw [if_pos (by rw [List.length_replicate])]

/-- Witness for C2's amended theorem on concrete inputs. -/
theorem c2_witness :
    Stack.push ⟨List.replicate 1024 0, 1024⟩ 5 = .error .crash ∧
    Stack.pop ⟨[], 1024⟩ = .error .crash ∧
    ExecutionContext.run 1 true c2DecodeCtx = .error .crash := by
  refine ⟨c2_amended.1 ⟨List.replicate 1024 0, 1024⟩ 5 (by rw [List.length_replicate]),
    c2_amended.2.1 ⟨[], 1024⟩ rfl,
    c2_amended.2.2 0 c2DecodeCtx rfl (by decide) rfl⟩

/-- C9 (amended): a PUSHn whose immediate extends past the end of the
code does **not** read the missing bytes as zero — the out-of-range
slice `code[pc+1..pc+1+n]` panics and the host aborts; when all `n`
bytes are present, PUSHn reads them, right-aligns them into a word,
pushes it and advances pc by `1 + n`. -/
theorem c9_amended (n : Nat) (fuel : Nat) (ctx : ExecutionContext) :
    (ctx.code.length < ctx.pc + 1 + n →
      Opcode.execute fuel (.PUSH n) ctx = .error .crash) ∧
    (ctx.pc + 1 + n ≤ ctx.code.length → ctx.stack.items.length ≠ ctx.stack.max_depth →
      Opcode.execute fuel (.PUSH n) ctx = .ok (true,
        { ctx with stack := ⟨ctx.stack.items ++ [beWord ((ctx.code.drop (ctx.pc + 1)).take n)],
                             ctx.stack.max_depth⟩,
                   gas := ctx.gas + 3, pc := ctx.pc + 1 + n })) := by
  constructor
  · intro h
    rw [Opcode.execute, executeWith_PUSH, if_neg (by omega)]
  · intro h hmd
    rw [Opcode.execute, executeWith_PUSH, if_pos h]
    simp only [Stack.push_ne _ _ hmd, eout_bind_ok]

/-- Counterexample for C9 as stated: the one-byte program `PUSH1` with
no immediate crashes the interpreter instead of pushing zero. -/
theorem c9_counterexample : ExecutionContext.run 3 true c9Ctx = .error .crash := rfl

/-- Witness for C9's amended theorem: the truncated `PUSH1` crashes and
the intact `PUSH1 0x2A` pushes 42. -/
theorem c9_witness :
    Opcode.execute 0 (.PUSH 1) c9Ctx = .error .crash ∧
    Opcode.execute 0 (.PUSH 1) c9okCtx = .ok (true,
      { c9okCtx with stack := ⟨[42], 1024⟩, gas := 3, pc := 2 }) := by
  refine ⟨(c9_amended 1 0 c9Ctx).1 (by decide), ?_⟩
  have h := (c9_amended 1 0 c9okCtx).2 (by decide) (by decide)
  rw [h]
  rfl


/-- C1 (amended): the value transfer of a sub-call is performed directly
on the parent's own state **before** the child context is cloned; when
the child frame fails, the parent keeps its stack, memory, logs and
return buffer unchanged but its state is the **post-transfer** state
`st1` (in general different from the pre-call state), and the success
flag 0 is reported to the calling opcode. -/
theorem c1_amended (fuel : Nat) (ctx : ExecutionContext) (call : Call) (st1 : State)
    (res : EvmResult) (subFin : ExecutionContext)
    (htr : State.transfer ctx.state call.originator call.recipient call.value = .ok st1)
    (hcode : (State.code st1 call.code_target).isEmpty = false)
    (hrun : ExecutionContext.run fuel true
      (ExecutionContext.sub_ctx { ctx with state := st1 } (State.code st1 call.code_target) call)
      = .ok (res, subFin))
    (hfail : res.success = false) :
    ExecutionContext.execute_call ctx fuel call =
      .ok (⟨0, res.result⟩, { ctx with state := st1 }) := by
  unfold ExecutionContext.execute_call ExecutionContext.execute_callWith
  rw [htr]
  simp only [hcode, Bool.false_eq_true, if_false, hrun, eout_bind_ok, hfail]

/-- C3 (amended): on a successful non-static sub-call the parent does
**not** splice only the return area — it adopts the child's final stack
and memory (and state) wholesale; since the child started from a clone
of the parent's post-pop stack and memory, any extra words or bytes the
child's code left behind become the parent's. The CALL opcode then
requires `ret_size ≤ len(child return data)` — a shorter return buffer
panics on the slice `result[0..ret_size]` instead of copying "up to"
`ret_size` bytes — and otherwise writes exactly the first `ret_size`
bytes of the return data to `memory[ret_offset..]` and pushes the
success flag 1. -/
theorem c3_amended :
    (∀ (fuel : Nat) (ctx : ExecutionContext) (call : Call) (st1 : State)
      (res : EvmResult) (subFin : ExecutionContext),
      State.transfer ctx.state call.originator call.recipient call.value = .ok st1 →
      (State.code st1 call.code_target).isEmpty = false →
      ExecutionContext.run fuel true
        (ExecutionContext.sub_ctx { ctx with state := st1 }
          (State.code st1 call.code_target) call) = .ok (res, subFin) →
      res.success = true →
      call.view = false →
      ExecutionContext.execute_call ctx fuel call =
        .ok (⟨1, res.result⟩,
          { ctx with stack := subFin.stack, memory := subFin.memory,
                     state := subFin.state, return_data := res.result })) ∧
    (∀ (fuel : Nat) (ctx : ExecutionContext) (rest : List Word)
      (g aw v ao asz ro rsz : Word) (cr : CallResult) (ctx1 : ExecutionContext),
      ctx.stack.items =
        rest ++ [rsz] ++ [ro] ++ [asz] ++ [ao] ++ [v] ++ [aw] ++ [g] →
      ao < 2 ^ 64 → asz < 2 ^ 64 → ro < 2 ^ 64 → rsz < 2 ^ 64 →
      ctx.env.call.is_static = false →
      ¬ State.balance ctx.state ctx.env.call.originator < v →
      ExecutionContext.execute_callWith (fun s c => ExecutionContext.run fuel s c)
        { ctx with stack := ⟨rest, ctx.stack.max_depth⟩,
                   gas := ctx.gas + Opcode.fix_gas .CALL,
                   memory := SpecMemory.grow ctx.memory (ao + asz) }
        (Call.new ctx.target (toAddress aw) ctx.env.call.originator g
          (ctx.gas + Opcode.fix_gas .CALL) (toAddress aw)
          (((SpecMemory.grow ctx.memory (ao + asz)).drop ao).take asz) v false)
        = .ok (cr, ctx1) →
      (cr.result.length < rsz → Opcode.execute fuel .CALL ctx = .error .crash) ∧
      (rsz ≤ cr.result.length → ctx1.stack.items.length ≠ ctx1.stack.max_depth →
        Opcode.execute fuel .CALL ctx = .ok (true,
          { ctx1 with stack := ⟨ctx1.stack.items ++ [cr.success], ctx1.stack.max_depth⟩,
                      memory := SpecMemory.store ctx1.memory ro (cr.result.take rsz),
                      pc := ctx1.pc + 1 }))) := by
  constructor
  · intro fuel ctx call st1 res subFin htr hcode hrun hsucc hview
    unfold ExecutionContext.execute_call ExecutionContext.execute_callWith
    rw [htr]
    simp only [hcode, Bool.false_eq_true, if_false, hrun, eout_bind_ok, hsucc, Call.is_static,
      hview, if_true]
  · intro fuel ctx rest g aw v ao asz ro rsz cr ctx1
      hstack hao hasz hro hrsz hstatic hbal hcall
    have hs : ctx.stack =
        ⟨rest ++ [rsz] ++ [ro] ++ [asz] ++ [ao] ++ [v] ++ [aw] ++ [g],
          ctx.stack.max_depth⟩ := by rw [← hstack]
    constructor
    · intro hlen
      rw [Opcode.execute, executeWith_CALL, hs]
      simp only [Stack.popUsize, Stack.pop_mk_concat, eout_bind_ok,
        asUsize_lt _ hao, asUsize_lt _ hasz, asUsize_lt _ hro, asUsize_lt _ hrsz,
        hstatic, Bool.false_and, Bool.not_false, Bool.true_and, Bool.false_eq_true, if_false,
        decide_eq_true_eq, SpecMemory.load_eq, ExecutionContext.gas_left]
      rw [if_neg hbal, hcall, eout_bind_ok, if_pos hlen]
    · intro hlen hmd
      rw [Opcode.execute, executeWith_CALL, hs]
      simp only [Stack.popUsize, Stack.pop_mk_concat, eout_bind_ok,
        asUsize_lt _ hao, asUsize_lt _ hasz, asUsize_lt _ hro, asUsize_lt _ hrsz,
        hstatic, Bool.false_and, Bool.not_false, Bool.true_and, Bool.false_eq_true, if_false,
        decide_eq_true_eq, SpecMemory.load_eq, ExecutionContext.gas_left]
      rw [if_neg hbal, hcall, eout_bind_ok, if_neg (Nat.not_lt.mpr hlen),
        Stack.push_ne _ _ hmd, eout_bind_ok]

/-- Helper for C4: the result assembled by the run loop carries exactly
the logs accumulated in the final frame, whether the run succeeded or
failed. -/
theorem run_result_logs : ∀ (fuel : Nat) (success : Bool) (ctx : ExecutionContext)
    (res : EvmResult) (ctx' : ExecutionContext),
    ExecutionContext.run fuel success ctx = .ok (res, ctx') → res.logs = ctx'.logs := by
  intro fuel
  induction fuel with
  | zero =>
    intro s c r c' h
    simp [ExecutionContext.run] at h
  | succ n ih =>
    intro s c r c' h
    rw [run_succ] at h
    split at h
    · injection h with h1
      unfold ExecutionContext.finish at h1
      injection h1 with h2 h3
      rw [← h2, ← h3]
    · split at h
      · cases h
      · rename_i op hop
        cases hx : Opcode.executeWith (fun s c => ExecutionContext.run n s c) op c with
        | error e =>
          rw [hx, eout_bind_err] at h
          cases h
        | ok p =>
          obtain ⟨s1, c1⟩ := p
          rw [hx, eout_bind_ok] at h
          exact ih s1 c1 r c' h

/-- C4 (amended): logs are **not** committed on success and discarded on
failure — a frame's result always carries whatever logs the frame
accumulated, even when it finalizes with success=false, and a parent
adopting a successful child's outcome keeps only its own log list, so
logs newly emitted by a sub-call never reach the parent. -/
theorem c4_amended :
    (∀ (fuel : Nat) (success : Bool) (ctx : ExecutionContext)
      (res : EvmResult) (ctx' : ExecutionContext),
      ExecutionContext.run fuel success ctx = .ok (res, ctx') → res.logs = ctx'.logs) ∧
    (∀ (ctx : ExecutionContext) (fuel : Nat) (call : Call)
      (cr : CallResult) (ctx' : ExecutionContext),
      ExecutionContext.execute_call ctx fuel call = .ok (cr, ctx') →
      ctx'.logs = ctx.logs) := by
  refine ⟨run_result_logs, ?_⟩
  intro ctx fuel call cr ctx' h
  unfold ExecutionContext.execute_call ExecutionContext.execute_callWith at h
  cases ht : State.transfer ctx.state call.originator call.recipient call.value with
  | error e =>
    rw [ht] at h
    cases h
    rfl
  | ok st1 =>
    rw [ht] at h
    dsimp only at h
    split at h
    · cases h
      rfl
    · cases hr : ExecutionContext.run fuel true
        (ExecutionContext.sub_ctx { ctx with state := st1 }
          (State.code st1 call.code_target) call) with
      | error e =>
        rw [hr, eout_bind_err] at h
        cases h
      | ok p =>
        obtain ⟨res, subFin⟩ := p
        rw [hr, eout_bind_ok] at h
        dsimp only at h
        split at h
        · cases h
          rfl
        · cases h
          rfl

/-- Counterexample for C4 as stated: `PUSH1 0 PUSH1 0 LOG0 INVALID`
fails yet its result still contains the emitted log; and a CALL into a
child that logs and completes successfully yields a parent result with
**no** logs. -/
theorem c4_counterexample :
    runResult 8 c4Ctx = .ok ⟨[], [⟨0xCC, [], []⟩], false, []⟩ ∧
    runResult 12 c4bCtx = .ok ⟨[1], [], true, []⟩ := ⟨rfl, rfl⟩

/-- Witness for C4's amended theorem on the concrete C1 fixture. -/
theorem c4_witness :
    ({ c1CtxPost with state := c1StateAfter } : ExecutionContext).logs = c1CtxPost.logs :=
  c4_amended.2 c1CtxPost 3 c1CallArg ⟨0, []⟩ { c1CtxPost with state := c1StateAfter } rfl

/-- Counterexample for C1 as stated: after a CALL with value 5 whose
child (code `INVALID`) fails, the parent's state is the post-transfer
state, different from the pre-call state. -/
theorem c1_counterexample :
    stepOutcome 4 .CALL c1Ctx = .ok (true, [0], c1StateAfter) ∧
    c1Ctx.state = c1State ∧ c1StateAfter ≠ c1State := by
  refine ⟨rfl, rfl, by decide⟩

/-- Witness for C1's amended theorem on the concrete fixture. -/
theorem c1_witness :
    ExecutionContext.execute_call c1CtxPost 3 c1CallArg =
      .ok (⟨0, []⟩, { c1CtxPost with state := c1StateAfter }) :=
  c1_amended 3 c1CtxPost c1CallArg c1StateAfter ⟨[], [], false, []⟩
    { ExecutionContext.sub_ctx { c1CtxPost with state := c1StateAfter } [0xFE] c1CallArg
      with pc := 1 }
    rfl rfl rfl rfl

/-- Counterexample for C3 as stated: a successful child that leaves an
extra word 0x2A on its stack makes the parent's post-CALL stack
`[0x2A, 1]` instead of the claimed `[1]`; and a `CALL` requesting
`ret_size = 1` from a child that returns no data panics instead of
copying "up to" `ret_size` bytes into memory. -/
theorem c3_counterexample :
    stepOutcome 6 .CALL c3Ctx = .ok (true, [42, 1], c3State) ∧
    ([42, 1] : List Word) ≠ [1] ∧
    Opcode.execute 6 .CALL c3CrashCtx = .error .crash := ⟨rfl, by decide, rfl⟩

/-- Witness for C3's amended theorem on the concrete fixtures: the
stack/memory adoption clause at the `0x2A`-pushing child, the panic
clause at `ret_size = 1` against an empty return buffer, and the
exact-copy clause at `ret_size = 2` against the `[0xAB, 0x00]`-returning
child (the two bytes land at `memory[0..2]` and the flag 1 is pushed). -/
theorem c3_witness :
    (ExecutionContext.execute_call c3CtxPost 4 c3CallArg =
      .ok (⟨1, []⟩,
        { c3CtxPost with stack := ⟨[42], 1024⟩, memory := [],
                         state := c3State, return_data := [] })) ∧
    Opcode.execute 8 .CALL c3CrashCtx = .error .crash ∧
    stepMemOutcome 8 .CALL c3RetCtx =
      .ok (true, [1], 0xAB :: List.replicate 31 0) := by
  refine ⟨?_, ?_, ?_⟩
  · exact c3_amended.1 4 c3CtxPost c3CallArg c3State ⟨[42], [], true, []⟩
      { ExecutionContext.sub_ctx { c3CtxPost with state := c3State } [0x60, 0x2A] c3CallArg
        with stack := ⟨[42], 1024⟩, gas := 3, pc := 2 }
      rfl rfl rfl rfl rfl
  · exact (c3_amended.2 8 c3CrashCtx [] 0 0xB 0 0 0 0 1 ⟨1, []⟩
      { c3CrashCtx with stack := ⟨[42], 1024⟩ }
      rfl (by decide) (by decide) (by decide) (by decide) rfl (by decide) rfl).1
      (by decide)
  · have h := (c3_amended.2 8 c3RetCtx [] 0 0xB 0 0 0 0 2 ⟨1, [0xAB, 0]⟩
      { c3RetCtx with stack := ⟨[], 1024⟩,
                      memory := 0xAB :: List.replicate 31 0,
                      return_data := [0xAB, 0] }
      rfl (by decide) (by decide) (by decide) (by decide) rfl (by decide) rfl).2
      (by decide) (by decide)
    rw [stepMemOutcome, h]
    rfl


/-- C6 (amended): the jump validator accepts target `t` exactly when
`0 < t < len(code)`, the byte at `t` is 0x5B, and the byte at `t - 1`
decodes to a non-PUSH opcode; a decodable non-JUMPDEST byte at `t` makes
the frame finalize with failure; but `t` out of range, `t = 0` with a
JUMPDEST there, or an undecodable byte at `t` or `t - 1` panics the
interpreter (host abort) rather than reverting. JUMP pops the target,
charges gas, and then follows the validator verbatim. -/
theorem c6_amended (code : List Nat) (t : Nat) :
    (code.length ≤ t → validate_jumpdest code t = .error .crash) ∧
    (t < code.length → decode (code.getD t 0) = none →
      validate_jumpdest code t = .error .crash) ∧
    (∀ op, t < code.length → decode (code.getD t 0) = some op → isJumpdestOp op = false →
      validate_jumpdest code t = .ok false) ∧
    (t = 0 → t < code.length → decode (code.getD t 0) = some .JUMPDEST →
      validate_jumpdest code t = .error .crash) ∧
    (0 < t → t < code.length → decode (code.getD t 0) = some .JUMPDEST →
      decode (code.getD (t - 1) 0) = none → validate_jumpdest code t = .error .crash) ∧
    (∀ op, 0 < t → t < code.length → decode (code.getD t 0) = some .JUMPDEST →
      decode (code.getD (t - 1) 0) = some op →
      validate_jumpdest code t = .ok (! isPushOp op)) ∧
    (∀ (fuel : Nat) (ctx : ExecutionContext) (rest : List Word) (d : Word),
      ctx.stack.items = rest ++ [d] → d < 2 ^ 64 →
      (validate_jumpdest ctx.code d = .ok true →
        Opcode.execute fuel .JUMP ctx = .ok (true,
          { ctx with stack := ⟨rest, ctx.stack.max_depth⟩, gas := ctx.gas + 8, pc := d })) ∧
      (validate_jumpdest ctx.code d = .ok false →
        Opcode.execute fuel .JUMP ctx = .ok (false,
          { ctx with stack := ⟨rest, ctx.stack.max_depth⟩, gas := ctx.gas + 8 })) ∧
      (validate_jumpdest ctx.code d = .error .crash →
        Opcode.execute fuel .JUMP ctx = .error .crash)) := by
  refine ⟨?_, ?_, ?_, ?_, ?_, ?_, ?_⟩
  · intro h
    unfold validate_jumpdest
    rw [if_neg (by omega)]
  · intro ht hdec
    unfold validate_jumpdest
    rw [if_pos ht, hdec]
  · intro op ht hdec hop
    unfold validate_jumpdest
    rw [if_pos ht, hdec]
    cases op <;> first | rfl | (exfalso; simp [isJumpdestOp] at hop)
  · intro h0 ht hdec
    unfold validate_jumpdest
    rw [if_pos ht, hdec, if_pos h0]
  · intro h0 ht hdec hdec1
    unfold validate_jumpdest
    rw [if_pos ht, hdec, if_neg (by omega), hdec1]
  · intro op h0 ht hdec hdec1
    unfold validate_jumpdest
    rw [if_pos ht, hdec, if_neg (by omega), hdec1]
  · intro fuel ctx rest d hstack hd
    have hs : ctx.stack = ⟨rest ++ [d], ctx.stack.max_depth⟩ := by rw [← hstack]
    refine ⟨?_, ?_, ?_⟩ <;>
      · intro hv
        rw [Opcode.execute, executeWith_JUMP, hs]
        simp only [Stack.popUsize, Stack.pop_mk_concat, eout_bind_ok, asUsize_lt _ hd, hv]

/-- Counterexample for C6 as stated: in `PUSH1 4 JUMP 0x0C JUMPDEST` the
jump target 4 holds byte 0x5B whose predecessor byte 0x0C is not a
PUSH1..PUSH32, so the claim requires the jump to proceed — the
interpreter instead panics decoding 0x0C; and in the spec's own
invalid-jump scenario `PUSH1 4 JUMP PUSH1 0x2A JUMPDEST` (target inside
a PUSH immediate) the claim requires a revert — the interpreter panics
decoding the immediate byte 0x2A. -/
theorem c6_counterexample :
    c6Ctx.code.getD 4 0 = 0x5B ∧ decode (c6Ctx.code.getD 3 0) = none ∧
    ExecutionContext.run 6 true c6Ctx = .error .crash ∧
    ExecutionContext.run 6 true c6bCtx = .error .crash := ⟨rfl, rfl, rfl, rfl⟩

/-- Witness for C6's amended theorem on concrete codes. -/
theorem c6_witness :
    validate_jumpdest [0x60, 0x03, 0x56, 0x5B] 3 = .ok true ∧
    validate_jumpdest [0x60, 0x03, 0x56, 0x00] 3 = .ok false ∧
    validate_jumpdest [0x5B] 1 = .error .crash := by
  refine ⟨?_, ?_, ?_⟩
  · exact (c6_amended [0x60, 0x03, 0x56, 0x5B] 3).2.2.2.2.2.1 .JUMP (by decide) (by decide)
      rfl rfl
  · exact (c6_amended [0x60, 0x03, 0x56, 0x00] 3).2.2.1 .STOP (by decide) rfl rfl
  · exact (c6_amended [0x5B] 1).1 (by decide)


/-- C7 (amended): for **every** parent frame sender `ps`, originator
`og`, executing contract `tgt` and parent call value `pv`, the child
context a DELEGATECALL constructs has sender = `tgt` (the currently
executing contract, not the parent's caller) and value = 0 (not the
parent's value), while recipient = `tgt` and code_target = the popped
address: a child probing with `CALLER` or `ADDRESS` leaves `tgt` on the
adopted stack, and one probing with `CALLVALUE` leaves 0, independently
of `ps` and `pv`. -/
theorem c7_amended (ps og tgt : Addr) (pv : Word) :
    stepOutcome 2 .DELEGATECALL
      (testCtx [0xF4] ⟨ps, tgt, og, 0, 0, tgt, [], pv, false, []⟩ c7State
        [0, 0, 0, 0, 0xDD, 0]) = .ok (true, [tgt, 1], c7State) ∧
    stepOutcome 2 .DELEGATECALL
      (testCtx [0xF4] ⟨ps, tgt, og, 0, 0, tgt, [], pv, false, []⟩ c7bState
        [0, 0, 0, 0, 0xDD, 0]) = .ok (true, [0, 1], c7bState) ∧
    stepOutcome 2 .DELEGATECALL
      (testCtx [0xF4] ⟨ps, tgt, og, 0, 0, tgt, [], pv, false, []⟩ c7cState
        [0, 0, 0, 0, 0xDD, 0]) = .ok (true, [tgt, 1], c7cState) :=
  ⟨rfl, rfl, rfl⟩

/-- Counterexample for C7 as stated: with parent caller `0xAA` and
parent value 7, the delegate-called child observes `CALLER = 0xCC` (the
executing contract, not `0xAA`) and `CALLVALUE = 0` (not 7). -/
theorem c7_counterexample :
    stepOutcome 2 .DELEGATECALL c7Ctx = .ok (true, [0xCC, 1], c7State) ∧
    c7Call.sender = 0xAA ∧ (0xCC : Word) ≠ 0xAA ∧
    stepOutcome 2 .DELEGATECALL c7bCtx = .ok (true, [0, 1], c7bState) ∧
    c7Call.value = 7 ∧ (0 : Word) ≠ 7 :=
  ⟨rfl, rfl, by decide, rfl, rfl, by decide⟩
